import Mathlib

/-!
Shallow embedding of the spatial-constraint core of the grid-maker scene
editor: the `CollisionManager` (src/unnamed/part_002), the
`ModelTransformManager` (src/public/js/ModelTransformManager.js) and the
model-lifecycle parts of `ModelManager` (src/public/js/ModelManager.js).

Conventions of the embedding:
* World coordinates are rationals (`ℚ`); the JS source uses doubles, but
  every claim under study is about exact comparisons and algebraic
  identities, so the idealised field is the faithful reading.
* JS objects mutated through references become explicit state passing:
  the model array `this.models` is a `List Model`, and an operation that
  mutates a model in place becomes a function `List Model → List Model`
  that rewrites the entry carrying the mutated model's id.  This is
  faithful whenever ids are unique in the list, which the registry
  guarantees (`modelIdCounter++` in ModelManager); theorems that depend
  on it carry a `Nodup` hypothesis on the id column.
* `THREE.Box3.setFromObject(model.root)` computes the world AABB of the
  model group; `ModelManager.loadModel` re-centres the loaded scene on
  its bounding-box centre, so the box is the footprint `size`, scaled by
  the uniform `scale`, centred at `position`.  `computeBoundingBox`
  below is that box.  Yaw rotation is tracked as a number (the source
  stores radians obtained from degrees by the constant factor π/180; the
  embedding accumulates the angle in degrees, since no claim under study
  depends on the numeric value of the stored angle, only on whether it
  is restored on rollback).
* `THREE.Box3.intersectsBox` is the separating-axis test of the three.js
  library (`box.max.x < this.min.x || box.min.x > this.max.x || … ?
  false : true`), which uses strict comparisons for *separation* and
  hence inclusive comparisons for intersection: boxes that merely touch
  intersect.  `intersectsBox` below is that test.
-/

namespace GridMaker

/-- World-space vector, as stored in `model.root.position` / sizes. -/
structure Vec3 where
  x : ℚ
  y : ℚ
  z : ℚ
deriving DecidableEq, Repr

/-- Axis-aligned box (`THREE.Box3`), as stored in `model.boundingBox`. -/
structure Box3 where
  min : Vec3
  max : Vec3
deriving DecidableEq, Repr

/-- The per-model state the spatial core reads and writes: the fields of
the `modelData` record built in `ModelManager.loadModel` that the
collision and transform managers touch.  `scale` is the uniform scalar
(`model.root.scale.x`); `size` is the immutable footprint. -/
structure Model where
  id : ℕ
  position : Vec3
  rotationY : ℚ
  scale : ℚ
  size : Vec3
  boundingBox : Box3
  isColliding : Bool
  initialCollisionState : Bool
deriving DecidableEq, Repr

instance : Inhabited Model :=
  ⟨⟨0, ⟨0, 0, 0⟩, 0, 1, ⟨0, 0, 0⟩, ⟨⟨0, 0, 0⟩, ⟨0, 0, 0⟩⟩, false, false⟩⟩

/-- `THREE.Box3.intersectsBox(box)`: rules the intersection out with six
strict separating-plane tests, so touching boxes count as intersecting. -/
def intersectsBox (a b : Box3) : Bool :=
  if b.max.x < a.min.x ∨ b.min.x > a.max.x ∨
     b.max.y < a.min.y ∨ b.min.y > a.max.y ∨
     b.max.z < a.min.z ∨ b.min.z > a.max.z then false else true

/-- The strict-overlap test that the specification text describes
("touching edges count as non-colliding — i.e. strict `<`/`>`
comparison, not `<=`").  Stated from the spec's words, only to be
compared against the `intersectsBox` the code actually calls. -/
def specStrictIntersects (a b : Box3) : Bool :=
  decide (a.min.x < b.max.x) && decide (b.min.x < a.max.x) &&
  decide (a.min.y < b.max.y) && decide (b.min.y < a.max.y) &&
  decide (a.min.z < b.max.z) && decide (b.min.z < a.max.z)

/-- World AABB of a model: `boundingBox.setFromObject(model.root)` for
the re-centred group — footprint `size`, scaled uniformly, centred at
`position`. -/
def computeBoundingBox (m : Model) : Box3 :=
  { min := ⟨m.position.x - m.size.x * m.scale / 2,
            m.position.y - m.size.y * m.scale / 2,
            m.position.z - m.size.z * m.scale / 2⟩
    max := ⟨m.position.x + m.size.x * m.scale / 2,
            m.position.y + m.size.y * m.scale / 2,
            m.position.z + m.size.z * m.scale / 2⟩ }

/-- `CollisionManager.updateModelBoundingBox(model)`. -/
def updateModelBoundingBox (m : Model) : Model :=
  { m with boundingBox := computeBoundingBox m }

/-- `CollisionManager.updateAllBoundingBoxes()`. -/
def updateAllBoundingBoxes (ms : List Model) : List Model :=
  ms.map updateModelBoundingBox

/-- The `models.forEach(model => { model.isColliding = false })` reset at
the head of `checkAllCollisions` (and the whole body of its disabled
branch). -/
def clearCollisionFlags (ms : List Model) : List Model :=
  ms.map fun m => { m with isColliding := false }

/-- Index pairs `(i, j)` with `i < j < n`, in the order the nested
`for (i …) for (j = i+1 …)` loop of `checkAllCollisions` visits them. -/
def pairList (n : ℕ) : List (ℕ × ℕ) :=
  (List.range n).flatMap fun i =>
    ((List.range n).filter fun j => i < j).map fun j => (i, j)

/-- `this.models[i].isColliding = true` for the element at index `i`;
out-of-range indices leave the list unchanged (never exercised by the
loop, which stays below `length`). -/
def setCollidingAt (ms : List Model) (i : ℕ) : List Model :=
  match ms.get? i with
  | none => ms
  | some m => ms.set i { m with isColliding := true }

/-- One iteration of the pair loop of `checkAllCollisions`: test the two
boxes, and on intersection mark both models and record that a collision
occurred. -/
def collisionPairStep (acc : List Model × Bool) (p : ℕ × ℕ) : List Model × Bool :=
  if intersectsBox (acc.1.getD p.1 default).boundingBox
      (acc.1.getD p.2 default).boundingBox then
    (setCollidingAt (setCollidingAt acc.1 p.1) p.2, true)
  else acc

/-- `CollisionManager.checkAllCollisions()`.  Returns the `anyCollision`
result together with the updated model list.  The visual side effects
(`setModelCollisionState`, DOM classes, the callback) are outside the
spatial state and are not modelled; note in particular that the
disabled branch calls ONLY `setModelCollisionState(model, false)`,
which writes collision-mesh opacity and DOM classes and never touches
`model.isColliding`, so the disabled branch leaves every model — stale
`isColliding` flags included — untouched. -/
def checkAllCollisions (enabled : Bool) (ms : List Model) : Bool × List Model :=
  if enabled then
    let ms1 := updateAllBoundingBoxes ms
    let r := (pairList ms1.length).foldl collisionPairStep (clearCollisionFlags ms1, false)
    (r.2, r.1)
  else
    (false, ms)

/-- The `moveConstraints` record of `ModelTransformManager`.  The
constructor initialises `allowCollisionMove`, `moveSpeed`, `gridSnap`
and `gridSize` but not `respectInitialCollision`, which therefore starts
out `undefined` (here `none`) until `setMoveConstraints` assigns it;
`checkMoveCollision` defaults an undefined value to `true`. -/
structure MoveConstraints where
  allowCollisionMove : Bool
  moveSpeed : ℚ
  gridSnap : Bool
  gridSize : ℚ
  respectInitialCollision : Option Bool
deriving DecidableEq, Repr

/-- The transform-manager state the position/rotation/scale updates
read: the optional grid boundary and the move constraints. -/
structure TransformState where
  gridBoundary : Option Box3
  moveConstraints : MoveConstraints
deriving DecidableEq, Repr

/-- `CollisionManager.getCollisionPairKey(id1, id2)`: the smaller id
first. -/
def getCollisionPairKey (id1 id2 : ℕ) : ℕ × ℕ :=
  if id1 < id2 then (id1, id2) else (id2, id1)

/-- `CollisionManager.isInitialCollisionPair(model1, model2)`. -/
def isInitialCollisionPair (pairs : List (ℕ × ℕ)) (model1 model2 : Model) : Bool :=
  pairs.contains (getCollisionPairKey model1.id model2.id)

/-- `CollisionManager.updateInitialCollisionPairs()`: clear the pair set
and re-register, for every index pair, the key of any two models that
both currently have `initialCollisionState` and whose current bounding
boxes intersect. -/
def updateInitialCollisionPairs (ms : List Model) : List (ℕ × ℕ) :=
  (pairList ms.length).filterMap fun p =>
    let model1 := ms.getD p.1 default
    let model2 := ms.getD p.2 default
    if model1.initialCollisionState && model2.initialCollisionState &&
        intersectsBox model1.boundingBox model2.boundingBox then
      some (getCollisionPairKey model1.id model2.id)
    else none

/-- `CollisionManager.getCollidingModels(model)`: ids of all other
models whose current bounding box intersects `model`'s current box. -/
def getCollidingModels (ms : List Model) (model : Model) : List ℕ :=
  (ms.filter fun otherModel =>
    decide (otherModel.id ≠ model.id) &&
      intersectsBox model.boundingBox otherModel.boundingBox).map Model.id

/-- `CollisionManager.hasNewCollision(previousCollisions,
currentCollisions, model)`: some current collision id that was not
previously colliding belongs to a model that is not a registered
initial-collision pair with `model`. -/
def hasNewCollision (pairs : List (ℕ × ℕ)) (ms : List Model)
    (previousCollisions currentCollisions : List ℕ) (model : Model) : Bool :=
  currentCollisions.any fun currentId =>
    !previousCollisions.contains currentId &&
      match ms.find? fun m => m.id = currentId with
      | none => false
      | some otherModel => !isInitialCollisionPair pairs model otherModel

/-- `this.modelManager.getModel(modelId)` / `this.models.find(m => m.id
=== modelId)`. -/
def findById (ms : List Model) (mid : ℕ) : Option Model :=
  ms.find? fun m => m.id = mid

/-- `model.root.position.copy(p)` on the model carrying id `mid`
(reference mutation made explicit; faithful under unique ids). -/
def setPositionById (ms : List Model) (mid : ℕ) (p : Vec3) : List Model :=
  ms.map fun m => if m.id = mid then { m with position := p } else m

/-- `model.root.rotation.y` assignment on the model carrying id `mid`. -/
def setRotationById (ms : List Model) (mid : ℕ) (r : ℚ) : List Model :=
  ms.map fun m => if m.id = mid then { m with rotationY := r } else m

/-- `model.root.scale.set(s, s, s)` on the model carrying id `mid`. -/
def setScaleById (ms : List Model) (mid : ℕ) (s : ℚ) : List Model :=
  ms.map fun m => if m.id = mid then { m with scale := s } else m

/-- `updateModelBoundingBox(model)` on the model carrying id `mid`. -/
def updateBoundingBoxById (ms : List Model) (mid : ℕ) : List Model :=
  ms.map fun m => if m.id = mid then updateModelBoundingBox m else m

/-- The pre-move colliding-neighbour snapshot of `checkMoveCollision`:
`getCollidingModels(model)` taken after `model.root.position.copy(
newPosition)` but before `updateModelBoundingBox(model)`, so the
target's box is still the pre-move one. -/
def preMoveNeighbors (ms : List Model) (mid : ℕ) (newPosition : Vec3) : List ℕ :=
  match findById (setPositionById ms mid newPosition) mid with
  | none => []
  | some model => getCollidingModels (setPositionById ms mid newPosition) model

/-- The tentative application inside `checkMoveCollision`: copy the new
position into the target, update its box, and rerun the full collision
pass. -/
def tentativeMove (enabled : Bool) (ms : List Model) (mid : ℕ)
    (newPosition : Vec3) : Bool × List Model :=
  checkAllCollisions enabled (updateBoundingBoxById (setPositionById ms mid newPosition) mid)

/-- The rollback arm of `checkMoveCollision`: restore the previous
position, update the box, rerun the collision pass. -/
def rollbackMove (enabled : Bool) (ms : List Model) (mid : ℕ)
    (previousPosition : Vec3) : List Model :=
  (checkAllCollisions enabled (updateBoundingBoxById (setPositionById ms mid previousPosition) mid)).2

/-- `CollisionManager.checkMoveCollision(model, newPosition,
previousPosition, constraints)`.  Returns the move verdict together
with the model list it leaves behind.  Only `allowCollisionMove` and
`respectInitialCollision` of the constraints are read. -/
def checkMoveCollision (enabled : Bool) (pairs : List (ℕ × ℕ)) (ms : List Model)
    (mid : ℕ) (newPosition previousPosition : Vec3) (cs : MoveConstraints) :
    Bool × List Model :=
  if !enabled then (true, ms)
  else
    let previousCollidingModels := preMoveNeighbors ms mid newPosition
    let r := tentativeMove enabled ms mid newPosition
    match findById r.2 mid with
    | none => (true, r.2)
    | some model =>
      if r.1 && model.isColliding then
        let respectInitial := cs.respectInitialCollision.getD true
        let currentCollidingModels := getCollidingModels r.2 model
        let hasNew := hasNewCollision pairs r.2 previousCollidingModels
          currentCollidingModels model
        if respectInitial && model.initialCollisionState && !hasNew then
          (true, r.2)
        else if !cs.allowCollisionMove then
          (false, rollbackMove enabled r.2 mid previousPosition)
        else (true, r.2)
      else (true, r.2)

/-- `Math.round(v / gridSize) * gridSize`.  Lean's `round` is
`⌊x + 1/2⌋`, which is exactly the half-toward-positive-infinity rule of
JavaScript's `Math.round`.  (At `gridSize = 0` the JS code divides by
zero and produces `NaN`; no claim concerns that input, and rational
division by zero yields `0` here.) -/
def gridSnapRound (gridSize v : ℚ) : ℚ :=
  (round (v / gridSize) : ℤ) * gridSize

/-- The axis argument of `updateModelPosition`. -/
inductive Axis where
  | x
  | y
  | z
deriving DecidableEq, Repr

/-- Read one coordinate: `position[axis]`. -/
def Vec3.getAxis (v : Vec3) : Axis → ℚ
  | Axis.x => v.x
  | Axis.y => v.y
  | Axis.z => v.z

/-- Write one coordinate: `newPosition[axis] = value`. -/
def Vec3.setAxis (v : Vec3) : Axis → ℚ → Vec3
  | Axis.x, q => { v with x := q }
  | Axis.y, q => { v with y := q }
  | Axis.z, q => { v with z := q }

/-- `ModelTransformManager.updateModelPosition(modelId, axis, value)`:
single-axis position update.  The `y` axis is forced to `0` and succeeds
immediately; with a grid boundary, an `x`/`z` candidate outside
`[min + buffer, max − buffer]` is rejected with no state change;
otherwise the (optionally grid-snapped) candidate goes through
`checkMoveCollision`. -/
def updateModelPosition (enabled : Bool) (pairs : List (ℕ × ℕ))
    (ts : TransformState) (ms : List Model) (modelId : ℕ) (axis : Axis)
    (value : ℚ) : Bool × List Model :=
  match findById ms modelId with
  | none => (false, ms)
  | some model =>
    let previousPosition := model.position
    let newPosition := Vec3.setAxis model.position axis value
    let early : Option (Bool × List Model) :=
      match ts.gridBoundary with
      | some gb =>
        let buffer := max model.size.x model.size.z / 2 * model.scale
        if axis = Axis.y then
          some (true, setPositionById ms modelId { model.position with y := 0 })
        else if axis = Axis.x ∧ (newPosition.x < gb.min.x + buffer ∨
            newPosition.x > gb.max.x - buffer) then
          some (false, ms)
        else if axis = Axis.z ∧ (newPosition.z < gb.min.z + buffer ∨
            newPosition.z > gb.max.z - buffer) then
          some (false, ms)
        else none
      | none =>
        if axis = Axis.y then
          some (true, setPositionById ms modelId { model.position with y := 0 })
        else none
    match early with
    | some r => r
    | none =>
      let snapped :=
        if ts.moveConstraints.gridSnap ∧ (axis = Axis.x ∨ axis = Axis.z) then
          Vec3.setAxis newPosition axis
            (gridSnapRound ts.moveConstraints.gridSize (newPosition.getAxis axis))
        else newPosition
      checkMoveCollision enabled pairs ms modelId snapped previousPosition
        ts.moveConstraints

/-- The boundary clamp of `updateModelXZPosition`: push each of the two
horizontal coordinates back into `[min + buffer, max − buffer]`. -/
def clampXZ (gb : Box3) (buffer : ℚ) (p : Vec3) : Vec3 :=
  let px := if p.x < gb.min.x + buffer then gb.min.x + buffer
            else if p.x > gb.max.x - buffer then gb.max.x - buffer
            else p.x
  let pz := if p.z < gb.min.z + buffer then gb.min.z + buffer
            else if p.z > gb.max.z - buffer then gb.max.z - buffer
            else p.z
  { p with x := px, z := pz }

/-- The candidate of `updateModelXZPosition` just before the optional
grid snap: `y` forced to 0 and, when a boundary is set, both horizontal
coordinates clamped with buffer `max(size.x, size.z)/2 × scale`. -/
def xzPreSnap (ts : TransformState) (model : Model) (x z : ℚ) : Vec3 :=
  let p0 : Vec3 := { x := x, y := 0, z := z }
  match ts.gridBoundary with
  | none => p0
  | some gb =>
    let buffer := max model.size.x model.size.z / 2 * model.scale
    clampXZ gb buffer p0

/-- The candidate position `updateModelXZPosition` hands to
`checkMoveCollision`: the clamped candidate, grid-snapped on both axes
if snapping is on. -/
def xzCandidate (ts : TransformState) (model : Model) (x z : ℚ) : Vec3 :=
  let p1 := xzPreSnap ts model x z
  if ts.moveConstraints.gridSnap then
    { p1 with
      x := gridSnapRound ts.moveConstraints.gridSize p1.x
      z := gridSnapRound ts.moveConstraints.gridSize p1.z }
  else p1

/-- `ModelTransformManager.updateModelXZPosition(modelId, x, z)`:
combined horizontal update — clamps (never rejects) at the boundary,
snaps, then defers to `checkMoveCollision`. -/
def updateModelXZPosition (enabled : Bool) (pairs : List (ℕ × ℕ))
    (ts : TransformState) (ms : List Model) (modelId : ℕ) (x z : ℚ) :
    Bool × List Model :=
  match findById ms modelId with
  | none => (false, ms)
  | some model =>
    checkMoveCollision enabled pairs ms modelId (xzCandidate ts model x z)
      model.position ts.moveConstraints

/-- `ModelTransformManager.moveSelectedModelByDelta(deltaX, deltaZ)`:
relative keyboard nudge, delegating to the combined X/Z update. -/
def moveSelectedModelByDelta (enabled : Bool) (pairs : List (ℕ × ℕ))
    (ts : TransformState) (ms : List Model) (selectedModelId : Option ℕ)
    (deltaX deltaZ : ℚ) : Bool × List Model :=
  match selectedModelId with
  | none => (false, ms)
  | some mid =>
    match findById ms mid with
    | none => (false, ms)
    | some model =>
      updateModelXZPosition enabled pairs ts ms model.id
        (model.position.x + deltaX) (model.position.z + deltaZ)

/-- `ModelTransformManager.rotateModel(modelId, angle)`: apply the yaw
delta, recheck, and roll back on a non-allowed collision. -/
def rotateModel (enabled : Bool) (ts : TransformState) (ms : List Model)
    (modelId : ℕ) (angle : ℚ) : Bool × List Model :=
  match findById ms modelId with
  | none => (false, ms)
  | some model =>
    let previousRotation := model.rotationY
    let ms1 := updateBoundingBoxById (setRotationById ms modelId (model.rotationY + angle)) modelId
    let r := checkAllCollisions enabled ms1
    let isColl := match findById r.2 modelId with
      | none => false
      | some m => m.isColliding
    if r.1 && isColl && !ts.moveConstraints.allowCollisionMove then
      let ms2 := updateBoundingBoxById (setRotationById r.2 modelId previousRotation) modelId
      (false, (checkAllCollisions enabled ms2).2)
    else (true, r.2)

/-- `ModelTransformManager.setModelScale(modelId, scale)`: reject
non-positive scales; apply the scale; reject (restoring the scale) if
the rescaled footprint no longer fits the boundary at the current
position, before any collision pass; otherwise recheck collisions and
roll back on a non-allowed collision. -/
def setModelScale (enabled : Bool) (ts : TransformState) (ms : List Model)
    (modelId : ℕ) (scale : ℚ) : Bool × List Model :=
  match findById ms modelId with
  | none => (false, ms)
  | some model =>
    if scale ≤ 0 then (false, ms)
    else
      let previousScale := model.scale
      let ms2 := updateBoundingBoxById (setScaleById ms modelId scale) modelId
      let boundaryReject :=
        match ts.gridBoundary with
        | none => false
        | some gb =>
          let newSizeX := model.size.x * scale
          let newSizeZ := model.size.z * scale
          let buffer := max newSizeX newSizeZ / 2
          decide (model.position.x - buffer < gb.min.x) ||
          decide (model.position.x + buffer > gb.max.x) ||
          decide (model.position.z - buffer < gb.min.z) ||
          decide (model.position.z + buffer > gb.max.z)
      if boundaryReject then
        (false, updateBoundingBoxById (setScaleById ms2 modelId previousScale) modelId)
      else
        let r := checkAllCollisions enabled ms2
        let isColl := match findById r.2 modelId with
          | none => false
          | some m => m.isColliding
        if r.1 && isColl && !ts.moveConstraints.allowCollisionMove then
          let ms3 := updateBoundingBoxById (setScaleById r.2 modelId previousScale) modelId
          (false, (checkAllCollisions enabled ms3).2)
        else (true, r.2)

/-- The tail of `ModelManager.loadModel` once the asset has produced a
`modelData` record (created with `isColliding = false` and
`initialCollisionState = false`): push it, hand the list to the
collision manager (`setModels`, which recomputes the initial-pair
registry), update the newcomer's box, run the collision pass, and only
then snapshot `initialCollisionState` from the fresh `isColliding`.
Returns the new pair registry and model list. -/
def loadModelCompletion (enabled : Bool) (ms : List Model) (modelData : Model) :
    List (ℕ × ℕ) × List Model :=
  let ms1 := ms ++ [modelData]
  let pairs1 := updateInitialCollisionPairs ms1
  let ms2 := updateBoundingBoxById ms1 modelData.id
  let r := checkAllCollisions enabled ms2
  let ms4 := r.2.map fun m =>
    if m.id = modelData.id then { m with initialCollisionState := m.isColliding } else m
  (pairs1, ms4)

/-- `ModelManager.removeModel(modelId)`: splice the model out, hand the
list to the collision manager (`setModels` recomputes the pair
registry), rerun the collision pass. -/
def removeModel (enabled : Bool) (pairs : List (ℕ × ℕ)) (ms : List Model)
    (modelId : ℕ) : Bool × List (ℕ × ℕ) × List Model :=
  match ms.findIdx? (fun m => m.id = modelId) with
  | none => (false, pairs, ms)
  | some i =>
    let ms1 := ms.eraseIdx i
    let pairs1 := updateInitialCollisionPairs ms1
    (true, pairs1, (checkAllCollisions enabled ms1).2)

/-- The fields of a model that survive a collision pass untouched:
everything except the recomputed `boundingBox` and `isColliding`. -/
structure ModelCore where
  id : ℕ
  position : Vec3
  rotationY : ℚ
  scale : ℚ
  size : Vec3
  initialCollisionState : Bool
deriving DecidableEq, Repr

/-- Projection onto the collision-pass-invariant fields. -/
def Model.core (m : Model) : ModelCore :=
  ⟨m.id, m.position, m.rotationY, m.scale, m.size, m.initialCollisionState⟩

/-- Rebuild a model from its core with cleared flag and recomputed box. -/
def ModelCore.rebuild (c : ModelCore) : Model :=
  let m : Model :=
    ⟨c.id, c.position, c.rotationY, c.scale, c.size,
      ⟨⟨0, 0, 0⟩, ⟨0, 0, 0⟩⟩, false, c.initialCollisionState⟩
  { m with boundingBox := computeBoundingBox m }

/-- A model list is collision-stable when a fresh (enabled) collision
pass reproduces it exactly: every bounding box is the one recomputed
from the current transform and every `isColliding` flag matches the
current pairwise intersections.  Every state the managers leave behind
after a `checkAllCollisions()` call is of this shape. -/
def CheckStable (ms : List Model) : Prop :=
  (checkAllCollisions true ms).2 = ms

instance (ms : List Model) : Decidable (CheckStable ms) :=
  inferInstanceAs (Decidable ((checkAllCollisions true ms).2 = ms))

/-- The floor-lock invariant: every registered model sits at `y = 0`. -/
def YZero (ms : List Model) : Prop :=
  ∀ m ∈ ms, m.position.y = 0

instance (ms : List Model) : Decidable (YZero ms) :=
  inferInstanceAs (Decidable (∀ m ∈ ms, m.position.y = 0))

/-- The `(id, initialCollisionState)` column of the registry, used to
state that transform operations never rewrite a model's snapshot. -/
def icMap (ms : List Model) : List (ℕ × Bool) :=
  ms.map fun m => (m.id, m.initialCollisionState)

/-- The box test the pair loop runs for index pair `p` over a fixed
model list. -/
def pairHit (base : List Model) (p : ℕ × ℕ) : Bool :=
  intersectsBox (base.getD p.1 default).boundingBox (base.getD p.2 default).boundingBox

/-- Whether an index pair mentions index `k`. -/
def touches (k : ℕ) (p : ℕ × ℕ) : Bool :=
  decide (p.1 = k) || decide (p.2 = k)

/-- The `isColliding` value the pair loop leaves at index `k`: some
visited pair mentions `k` and its boxes intersect. -/
def postFlag (base : List Model) (k : ℕ) : Bool :=
  (pairList base.length).any fun p => touches k p && pairHit base p

/-- Concrete model builder for example states: a 2×2×2-footprint model
at floor position `(px, 0, pz)` with unit scale, a bounding box already
consistent with that transform, no collision flag, and the given
initial-collision snapshot. -/
def sampleModel (i : ℕ) (px pz : ℚ) (ic : Bool) : Model :=
  let m : Model :=
    ⟨i, ⟨px, 0, pz⟩, 0, 1, ⟨2, 2, 2⟩, ⟨⟨0, 0, 0⟩, ⟨0, 0, 0⟩⟩, false, ic⟩
  { m with boundingBox := computeBoundingBox m }

/-- Concrete freshly created model record, as `ModelManager.loadModel`
builds it before the first collision pass: flags down, box not yet
computed. -/
def freshModel (i : ℕ) (px pz : ℚ) : Model :=
  ⟨i, ⟨px, 0, pz⟩, 0, 1, ⟨2, 2, 2⟩, ⟨⟨0, 0, 0⟩, ⟨0, 0, 0⟩⟩, false, false⟩

end GridMaker

namespace GridMaker

/-! ## Characterisation of the collision pass -/

theorem intersectsBox_eq_true_iff (a b : Box3) :
    intersectsBox a b = true ↔
      a.min.x ≤ b.max.x ∧ b.min.x ≤ a.max.x ∧ a.min.y ≤ b.max.y ∧ b.min.y ≤ a.max.y ∧
        a.min.z ≤ b.max.z ∧ b.min.z ≤ a.max.z := by
  unfold intersectsBox
  by_cases h : (b.max.x < a.min.x ∨ b.min.x > a.max.x ∨ b.max.y < a.min.y ∨
      b.min.y > a.max.y ∨ b.max.z < a.min.z ∨ b.min.z > a.max.z)
  · rw [if_pos h]
    constructor
    · intro hft
      exact absurd hft (by simp)
    · intro hc
      obtain ⟨h1, h2, h3, h4, h5, h6⟩ := hc
      exfalso
      rcases h with h | h | h | h | h | h <;> linarith
  · rw [if_neg h]
    push_neg at h
    constructor
    · intro _
      exact ⟨h.1, h.2.1, h.2.2.1, h.2.2.2.1, h.2.2.2.2.1, h.2.2.2.2.2⟩
    · intro _
      rfl

theorem intersectsBox_symm (a b : Box3) : intersectsBox a b = intersectsBox b a := by
  have hiff : intersectsBox a b = true ↔ intersectsBox b a = true := by
    rw [intersectsBox_eq_true_iff, intersectsBox_eq_true_iff]; tauto
  cases hab : intersectsBox a b with
  | true => exact (hiff.1 hab).symm
  | false =>
    cases hba : intersectsBox b a with
    | true => exact absurd (hiff.2 hba) (by simp [hab])
    | false => rfl

theorem mem_pairList {n i j : ℕ} : (i, j) ∈ pairList n ↔ i < j ∧ j < n := by
  unfold pairList
  simp only [List.mem_flatMap, List.mem_map, List.mem_filter, List.mem_range, Prod.mk.injEq,
    decide_eq_true_eq]
  constructor
  · rintro ⟨a, ha, b, ⟨hb, hab⟩, rfl, rfl⟩
    exact ⟨hab, hb⟩
  · rintro ⟨hij, hj⟩
    exact ⟨i, lt_trans hij hj, j, ⟨hj, hij⟩, rfl, rfl⟩

theorem setCollidingAt_getElem? (ms : List Model) (i k : ℕ) :
    (setCollidingAt ms i)[k]? =
      if i = k then (ms[k]?).map fun m => { m with isColliding := true } else ms[k]? := by
  unfold setCollidingAt
  cases h : ms.get? i with
  | none =>
    rw [List.get?_eq_getElem?] at h
    by_cases hik : i = k
    · subst hik
      rw [if_pos rfl, h]
      rfl
    · rw [if_neg hik]
  | some m =>
    rw [List.get?_eq_getElem?] at h
    have hlen : i < ms.length := by
      by_contra hc
      rw [List.getElem?_eq_none (le_of_not_lt hc)] at h
      exact Option.noConfusion h
    rw [List.getElem?_set]
    by_cases hik : i = k
    · subst hik
      rw [if_pos rfl, if_pos rfl, if_pos hlen, h]
      rfl
    · rw [if_neg hik, if_neg hik]

theorem foldl_collisionPairStep_char (base : List Model) (l : List (ℕ × ℕ)) :
    ∀ (f : ℕ → Bool) (b : Bool) (cur : List Model),
    (∀ (k : ℕ), cur[k]? = (base[k]?).map fun m => { m with isColliding := f k }) →
    (∀ (k : ℕ), (l.foldl collisionPairStep (cur, b)).1[k]? =
        (base[k]?).map fun m =>
          { m with isColliding := f k || l.any fun p => touches k p && pairHit base p }) ∧
    (l.foldl collisionPairStep (cur, b)).2 = (b || l.any (pairHit base)) := by
  induction l with
  | nil =>
    intro f b cur hcur
    refine ⟨fun k => ?_, by simp⟩
    simpa using hcur k
  | cons p l ih =>
    intro f b cur hcur
    have hbox : ∀ (j : ℕ), (cur.getD j default).boundingBox = (base.getD j default).boundingBox := by
      intro j
      rw [List.getD_eq_getElem?_getD, List.getD_eq_getElem?_getD, hcur j]
      cases base[j]? <;> rfl
    have hstep : collisionPairStep (cur, b) p =
        if pairHit base p then (setCollidingAt (setCollidingAt cur p.1) p.2, true)
        else (cur, b) := by
      unfold collisionPairStep pairHit
      rw [hbox p.1, hbox p.2]
    rw [List.foldl_cons, hstep]
    by_cases hp : pairHit base p = true
    · rw [if_pos hp]
      have hcur2 : ∀ (k : ℕ), (setCollidingAt (setCollidingAt cur p.1) p.2)[k]? =
          (base[k]?).map fun m => { m with isColliding := f k || touches k p } := by
        intro k
        rw [setCollidingAt_getElem?, setCollidingAt_getElem?]
        by_cases h2 : p.2 = k
        · rw [if_pos h2]
          by_cases h1 : p.1 = k
          · rw [if_pos h1, hcur k]
            cases base[k]? <;> simp [touches, h1, h2]
          · rw [if_neg h1, hcur k]
            cases base[k]? <;> simp [touches, h1, h2]
        · rw [if_neg h2]
          by_cases h1 : p.1 = k
          · rw [if_pos h1, hcur k]
            cases base[k]? <;> simp [touches, h1, h2]
          · rw [if_neg h1, hcur k]
            cases base[k]? <;> simp [touches, h1, h2]
      obtain ⟨ihf, ihb⟩ := ih (fun k => f k || touches k p) true _ hcur2
      refine ⟨fun k => ?_, ?_⟩
      · rw [ihf k]
        cases base[k]? with
        | none => rfl
        | some m => simp [List.any_cons, hp, Bool.or_assoc]
      · rw [ihb]
        simp [List.any_cons, hp]
    · have hp' : pairHit base p = false := by simpa using hp
      rw [if_neg hp]
      obtain ⟨ihf, ihb⟩ := ih f b cur hcur
      refine ⟨fun k => ?_, ?_⟩
      · rw [ihf k]
        cases base[k]? <;> simp [List.any_cons, hp']
      · rw [ihb]
        simp [List.any_cons, hp']

theorem checkAll_true_eq (ms : List Model) :
    checkAllCollisions true ms =
      (((pairList (updateAllBoundingBoxes ms).length).foldl collisionPairStep
          (clearCollisionFlags (updateAllBoundingBoxes ms), false)).2,
       ((pairList (updateAllBoundingBoxes ms).length).foldl collisionPairStep
          (clearCollisionFlags (updateAllBoundingBoxes ms), false)).1) := rfl

theorem checkAll_clear_getElem? (ms : List Model) (j : ℕ) :
    (clearCollisionFlags (updateAllBoundingBoxes ms))[j]? =
      ((updateAllBoundingBoxes ms)[j]?).map fun m => { m with isColliding := false } := by
  unfold clearCollisionFlags
  rw [List.getElem?_map]

theorem checkAll_true_getElem? (ms : List Model) (k : ℕ) :
    (checkAllCollisions true ms).2[k]? =
      ((updateAllBoundingBoxes ms)[k]?).map fun m =>
        { m with isColliding := postFlag (updateAllBoundingBoxes ms) k } := by
  obtain ⟨hf, _⟩ := foldl_collisionPairStep_char (updateAllBoundingBoxes ms)
    (pairList (updateAllBoundingBoxes ms).length) (fun _ => false) false _
    (checkAll_clear_getElem? ms)
  rw [checkAll_true_eq]
  rw [hf k]
  cases (updateAllBoundingBoxes ms)[k]? <;> simp [postFlag]

theorem checkAll_true_bool (ms : List Model) :
    (checkAllCollisions true ms).1 =
      (pairList (updateAllBoundingBoxes ms).length).any
        (pairHit (updateAllBoundingBoxes ms)) := by
  obtain ⟨_, hb⟩ := foldl_collisionPairStep_char (updateAllBoundingBoxes ms)
    (pairList (updateAllBoundingBoxes ms).length) (fun _ => false) false _
    (checkAll_clear_getElem? ms)
  rw [checkAll_true_eq]
  rw [hb]
  simp

theorem checkAll_false_eq (ms : List Model) :
    checkAllCollisions false ms = (false, ms) := rfl

theorem length_updateAllBoundingBoxes (ms : List Model) :
    (updateAllBoundingBoxes ms).length = ms.length :=
  List.length_map ms updateModelBoundingBox

theorem checkAll_true_length (ms : List Model) :
    (checkAllCollisions true ms).2.length = ms.length := by
  apply le_antisymm
  · by_contra hc
    push_neg at hc
    have h1 : (checkAllCollisions true ms).2[ms.length]? = none := by
      rw [checkAll_true_getElem?, List.getElem?_eq_none]
      · rfl
      · rw [length_updateAllBoundingBoxes]
    rw [List.getElem?_eq_getElem hc] at h1
    exact Option.noConfusion h1
  · by_contra hc
    push_neg at hc
    have h1 : (checkAllCollisions true ms).2[(checkAllCollisions true ms).2.length]? = none :=
      List.getElem?_eq_none le_rfl
    rw [checkAll_true_getElem?] at h1
    have h2 : (checkAllCollisions true ms).2.length < (updateAllBoundingBoxes ms).length := by
      rwa [length_updateAllBoundingBoxes]
    rw [List.getElem?_eq_getElem h2] at h1
    exact Option.noConfusion h1

theorem postFlag_true_iff (base : List Model) (k : ℕ) (hk : k < base.length) :
    postFlag base k = true ↔
      ∃ j, j < base.length ∧ j ≠ k ∧
        intersectsBox (base.getD k default).boundingBox
          (base.getD j default).boundingBox = true := by
  unfold postFlag
  rw [List.any_eq_true]
  constructor
  · rintro ⟨⟨i, j⟩, hp, hpk⟩
    rw [Bool.and_eq_true] at hpk
    obtain ⟨ht, hh⟩ := hpk
    obtain ⟨hij, hj⟩ := mem_pairList.mp hp
    unfold touches at ht
    rw [Bool.or_eq_true, decide_eq_true_eq, decide_eq_true_eq] at ht
    unfold pairHit at hh
    rcases ht with h1 | h2
    · subst h1
      exact ⟨j, hj, by omega, hh⟩
    · subst h2
      refine ⟨i, by omega, by omega, ?_⟩
      rw [intersectsBox_symm]
      exact hh
  · rintro ⟨j, hj, hjk, hint⟩
    rcases Nat.lt_or_ge k j with hkj | hjk2
    · refine ⟨(k, j), mem_pairList.mpr ⟨hkj, hj⟩, ?_⟩
      rw [Bool.and_eq_true]
      refine ⟨by simp [touches], ?_⟩
      unfold pairHit
      exact hint
    · have hjlt : j < k := by omega
      refine ⟨(j, k), mem_pairList.mpr ⟨hjlt, hk⟩, ?_⟩
      rw [Bool.and_eq_true]
      refine ⟨by simp [touches], ?_⟩
      unfold pairHit
      rw [intersectsBox_symm]
      exact hint

theorem checkAll_bool_iff (ms : List Model) :
    (checkAllCollisions true ms).1 = true ↔
      ∃ i j, i < j ∧ j < ms.length ∧
        intersectsBox ((updateAllBoundingBoxes ms).getD i default).boundingBox
          ((updateAllBoundingBoxes ms).getD j default).boundingBox = true := by
  rw [checkAll_true_bool, List.any_eq_true]
  constructor
  · rintro ⟨⟨i, j⟩, hp, hh⟩
    obtain ⟨hij, hj⟩ := mem_pairList.mp hp
    rw [length_updateAllBoundingBoxes] at hj
    exact ⟨i, j, hij, hj, hh⟩
  · rintro ⟨i, j, hij, hj, hh⟩
    refine ⟨(i, j), mem_pairList.mpr ⟨hij, ?_⟩, hh⟩
    rwa [length_updateAllBoundingBoxes]

theorem checkAll_flag_imp_bool (ms : List Model) (m : Model)
    (hm : m ∈ (checkAllCollisions true ms).2) (hflag : m.isColliding = true) :
    (checkAllCollisions true ms).1 = true := by
  rw [List.mem_iff_getElem?] at hm
  obtain ⟨k, hk⟩ := hm
  rw [checkAll_true_getElem?] at hk
  cases hms1 : (updateAllBoundingBoxes ms)[k]? with
  | none =>
    rw [hms1] at hk
    exact Option.noConfusion hk
  | some m1 =>
    rw [hms1] at hk
    have hm1 : m = { m1 with isColliding := postFlag (updateAllBoundingBoxes ms) k } :=
      (Option.some_inj.mp hk).symm
    have hkk : k < (updateAllBoundingBoxes ms).length := by
      by_contra hc
      rw [List.getElem?_eq_none (le_of_not_lt hc)] at hms1
      exact Option.noConfusion hms1
    have hpost : postFlag (updateAllBoundingBoxes ms) k = true := by
      rw [hm1] at hflag
      exact hflag
    obtain ⟨j, hj, hjk, hint⟩ := (postFlag_true_iff _ _ hkk).mp hpost
    rw [checkAll_bool_iff]
    rw [length_updateAllBoundingBoxes] at hj hkk
    rcases Nat.lt_or_ge k j with hkj | hge
    · exact ⟨k, j, hkj, hj, hint⟩
    · refine ⟨j, k, by omega, hkk, ?_⟩
      rw [intersectsBox_symm]
      exact hint

/-! ## Field-preservation and lookup transfer -/

theorem forall₂_core_map {l : List Model} (g : Model → Model)
    (hg : ∀ m, (g m).core = m.core) :
    List.Forall₂ (fun m m' => m'.core = m.core) l (l.map g) := by
  induction l with
  | nil => constructor
  | cons a l ih => exact List.Forall₂.cons (hg a) ih

theorem core_updateModelBoundingBox (m : Model) :
    (updateModelBoundingBox m).core = m.core := rfl

theorem forall₂_core_refl (l : List Model) :
    List.Forall₂ (fun m m' => m'.core = m.core) l l := by
  induction l with
  | nil => constructor
  | cons a l ih => exact List.Forall₂.cons rfl ih

theorem checkAll_forall₂ (e : Bool) (ms : List Model) :
    List.Forall₂ (fun m m' => m'.core = m.core) ms (checkAllCollisions e ms).2 := by
  cases e with
  | false => exact forall₂_core_refl ms
  | true =>
    rw [List.forall₂_iff_get]
    refine ⟨(checkAll_true_length ms).symm, ?_⟩
    intro i h1 h2
    have hc := checkAll_true_getElem? ms i
    have hup : (updateAllBoundingBoxes ms)[i]? = some (updateModelBoundingBox ms[i]) := by
      unfold updateAllBoundingBoxes
      rw [List.getElem?_map, List.getElem?_eq_getElem h1]
      rfl
    rw [hup] at hc
    rw [List.getElem?_eq_getElem h2] at hc
    have := Option.some_inj.mp hc.symm
    simp only [List.get_eq_getElem]
    rw [← this]
    rfl

theorem forall₂_findById {R : Model → Model → Prop}
    (hid : ∀ a b, R a b → b.id = a.id) :
    ∀ {l l' : List Model}, List.Forall₂ R l l' → ∀ (mid : ℕ) (a : Model),
      findById l mid = some a → ∃ b, findById l' mid = some b ∧ R a b := by
  intro l l' h
  induction h with
  | nil =>
    intro mid a ha
    exact Option.noConfusion ha
  | cons hR hl ih =>
    rename_i x y l₁ l₂
    intro mid a ha
    simp only [findById] at ha ⊢
    by_cases hx : x.id = mid
    · rw [List.find?_cons_of_pos _ (by simpa using hx)] at ha
      have hax : a = x := (Option.some_inj.mp ha).symm
      refine ⟨y, ?_, by rw [hax]; exact hR⟩
      rw [List.find?_cons_of_pos _ (by simp [hid x y hR, hx])]
    · rw [List.find?_cons_of_neg _ (by simpa using hx)] at ha
      obtain ⟨b, hb, hRb⟩ := ih mid a ha
      refine ⟨b, ?_, hRb⟩
      rw [List.find?_cons_of_neg _ (by simp [hid x y hR, hx])]
      exact hb

theorem findById_map_idPreserving (g : Model → Model) (hg : ∀ m, (g m).id = m.id)
    (ms : List Model) (mid : ℕ) :
    findById (ms.map g) mid = (findById ms mid).map g := by
  induction ms with
  | nil => rfl
  | cons a l ih =>
    simp only [findById, List.map_cons] at ih ⊢
    by_cases ha : a.id = mid
    · rw [List.find?_cons_of_pos _ (by simp [hg a, ha]),
        List.find?_cons_of_pos _ (by simpa using ha)]
      rfl
    · rw [List.find?_cons_of_neg _ (by simp [hg a, ha]),
        List.find?_cons_of_neg _ (by simpa using ha)]
      exact ih

theorem forall₂_core_map_eq {l l' : List Model}
    (h : List.Forall₂ (fun m m' => m'.core = m.core) l l') :
    l'.map Model.core = l.map Model.core := by
  induction h with
  | nil => rfl
  | cons hR _ ih => simp [ih, hR]

theorem map_core_checkAll (e : Bool) (ms : List Model) :
    (checkAllCollisions e ms).2.map Model.core = ms.map Model.core :=
  forall₂_core_map_eq (checkAll_forall₂ e ms)

theorem rebuild_core (m : Model) :
    ModelCore.rebuild m.core = { updateModelBoundingBox m with isColliding := false } := rfl

theorem checkAll_true_congr_core {l l' : List Model}
    (h : l.map Model.core = l'.map Model.core) :
    checkAllCollisions true l = checkAllCollisions true l' := by
  have hstep : ∀ (t : List Model),
      clearCollisionFlags (updateAllBoundingBoxes t) = (t.map Model.core).map ModelCore.rebuild := by
    intro t
    unfold clearCollisionFlags updateAllBoundingBoxes
    rw [List.map_map, List.map_map]
    apply List.map_congr_left
    intro a _
    exact (rebuild_core a).symm
  have hbase : clearCollisionFlags (updateAllBoundingBoxes l) =
      clearCollisionFlags (updateAllBoundingBoxes l') := by
    rw [hstep l, hstep l', h]
  have hlen : (updateAllBoundingBoxes l).length = (updateAllBoundingBoxes l').length := by
    rw [length_updateAllBoundingBoxes, length_updateAllBoundingBoxes,
      ← List.length_map l Model.core, h, List.length_map]
  rw [checkAll_true_eq, checkAll_true_eq, hbase, hlen]

theorem map_core_setPositionById (ms : List Model) (mid : ℕ) (p : Vec3) :
    (setPositionById ms mid p).map Model.core =
      (ms.map Model.core).map fun c => if c.id = mid then { c with position := p } else c := by
  unfold setPositionById
  rw [List.map_map, List.map_map]
  apply List.map_congr_left
  intro a _
  by_cases ha : a.id = mid <;> simp [Function.comp, Model.core, ha]

theorem map_core_updateBoundingBoxById (ms : List Model) (mid : ℕ) :
    (updateBoundingBoxById ms mid).map Model.core = ms.map Model.core := by
  unfold updateBoundingBoxById
  rw [List.map_map]
  apply List.map_congr_left
  intro a _
  show Model.core (if a.id = mid then updateModelBoundingBox a else a) = Model.core a
  by_cases ha : a.id = mid
  · rw [if_pos ha]
    rfl
  · rw [if_neg ha]

theorem coreSet_coreSet (cs : List ModelCore) (mid : ℕ) (p q : Vec3) :
    ((cs.map fun c => if c.id = mid then { c with position := p } else c).map
      fun c => if c.id = mid then { c with position := q } else c) =
      cs.map fun c => if c.id = mid then { c with position := q } else c := by
  rw [List.map_map]
  apply List.map_congr_left
  intro c _
  by_cases h : c.id = mid <;> simp [Function.comp, h]

theorem coreSet_id_of_position (ms : List Model) (mid : ℕ) (q : Vec3)
    (h : ∀ m ∈ ms, m.id = mid → m.position = q) :
    ((ms.map Model.core).map fun c => if c.id = mid then { c with position := q } else c) =
      ms.map Model.core := by
  rw [List.map_map]
  apply List.map_congr_left
  intro m hm
  by_cases hid : m.id = mid
  · simp [Function.comp, Model.core, hid, h m hm hid]
  · simp [Function.comp, Model.core, hid]

theorem eq_found_of_nodup {ms : List Model} (hnd : (ms.map Model.id).Nodup)
    {mid : ℕ} {model0 : Model} (h0 : findById ms mid = some model0) :
    ∀ m ∈ ms, m.id = mid → m = model0 := by
  intro m hm hmid
  have hmem0 : model0 ∈ ms := List.mem_of_find?_eq_some h0
  have hid0 : model0.id = mid := by simpa using List.find?_some h0
  exact List.inj_on_of_nodup_map hnd hm hmem0 (by rw [hmid, hid0])

theorem rollback_eq_of_stable {ms : List Model} (hnd : (ms.map Model.id).Nodup)
    (hst : CheckStable ms) {mid : ℕ} {model0 : Model}
    (h0 : findById ms mid = some model0) (np : Vec3) :
    rollbackMove true (tentativeMove true ms mid np).2 mid model0.position = ms := by
  unfold rollbackMove tentativeMove
  have hcore : (updateBoundingBoxById (setPositionById
      (checkAllCollisions true (updateBoundingBoxById (setPositionById ms mid np) mid)).2
        mid model0.position) mid).map Model.core = ms.map Model.core := by
    rw [map_core_updateBoundingBoxById, map_core_setPositionById, map_core_checkAll,
      map_core_updateBoundingBoxById, map_core_setPositionById, coreSet_coreSet]
    exact coreSet_id_of_position ms mid model0.position
      (fun m hm hmid => by rw [eq_found_of_nodup hnd h0 m hm hmid])
  rw [checkAll_true_congr_core hcore]
  exact hst

theorem checkMove_false_inv {e : Bool} {pairs : List (ℕ × ℕ)} {ms : List Model}
    {mid : ℕ} {np pp : Vec3} {cs : MoveConstraints} {out : List Model}
    (h : checkMoveCollision e pairs ms mid np pp cs = (false, out)) :
    e = true ∧ out = rollbackMove true (tentativeMove true ms mid np).2 mid pp := by
  cases e with
  | false =>
    exfalso
    unfold checkMoveCollision at h
    simp at h
  | true =>
    refine ⟨rfl, ?_⟩
    unfold checkMoveCollision at h
    simp only [Bool.not_true] at h
    rw [if_neg (by simp)] at h
    split at h
    · simp at h
    · split at h
      · split at h
        · simp at h
        · split at h
          · simp only [Prod.mk.injEq] at h
            exact h.2.symm
          · simp at h
      · simp at h

theorem checkAll_true_getD (ms : List Model) (k : ℕ) (hk : k < ms.length) :
    (checkAllCollisions true ms).2.getD k default =
      { (updateAllBoundingBoxes ms).getD k default with
        isColliding := postFlag (updateAllBoundingBoxes ms) k } := by
  have hk1 : k < (updateAllBoundingBoxes ms).length := by
    rwa [length_updateAllBoundingBoxes]
  rw [List.getD_eq_getElem?_getD, checkAll_true_getElem?, List.getElem?_eq_getElem hk1,
    List.getD_eq_getElem?_getD, List.getElem?_eq_getElem hk1]
  rfl

/-! ## Claim theorems -/

/-- C1 (amended): after `checkAllCollisions()` with detection enabled,
both members of every index pair whose (recomputed) bounding boxes
intersect carry `isColliding = true`; a model whose box intersects no
other model's box carries `isColliding = false`; the call returns
`true` iff some pair intersects, hence `false` on an empty or
singleton list.  With detection disabled the call returns `false` and
leaves the model list entirely untouched — in particular stale
`isColliding` flags from the last enabled pass persist, since the
disabled branch only resets the visual collision indication
(`setModelCollisionState`) and never writes `model.isColliding`. -/
theorem C1_checkAllCollisions_spec :
    (∀ (ms : List Model) (i j : ℕ), i < j → j < ms.length →
      intersectsBox ((updateAllBoundingBoxes ms).getD i default).boundingBox
        ((updateAllBoundingBoxes ms).getD j default).boundingBox = true →
      ((checkAllCollisions true ms).2.getD i default).isColliding = true ∧
        ((checkAllCollisions true ms).2.getD j default).isColliding = true) ∧
    (∀ (ms : List Model) (i : ℕ), i < ms.length →
      (∀ (j : ℕ), j < ms.length → j ≠ i →
        intersectsBox ((updateAllBoundingBoxes ms).getD i default).boundingBox
          ((updateAllBoundingBoxes ms).getD j default).boundingBox = false) →
      ((checkAllCollisions true ms).2.getD i default).isColliding = false) ∧
    (∀ (ms : List Model), (checkAllCollisions true ms).1 = true ↔
      ∃ i j, i < j ∧ j < ms.length ∧
        intersectsBox ((updateAllBoundingBoxes ms).getD i default).boundingBox
          ((updateAllBoundingBoxes ms).getD j default).boundingBox = true) ∧
    (∀ (ms : List Model), ms.length ≤ 1 → (checkAllCollisions true ms).1 = false) ∧
    (∀ (ms : List Model), checkAllCollisions false ms = (false, ms)) := by
  have hlen1 : ∀ (ms : List Model) (k : ℕ), k < ms.length →
      k < (updateAllBoundingBoxes ms).length := by
    intro ms k hk
    rwa [length_updateAllBoundingBoxes]
  refine ⟨?_, ?_, ?_, ?_, ?_⟩
  · intro ms i j hij hj hint
    have hi : i < ms.length := lt_trans hij hj
    rw [checkAll_true_getD ms i hi, checkAll_true_getD ms j hj]
    constructor
    · show postFlag (updateAllBoundingBoxes ms) i = true
      rw [postFlag_true_iff _ _ (hlen1 ms i hi)]
      exact ⟨j, hlen1 ms j hj, by omega, hint⟩
    · show postFlag (updateAllBoundingBoxes ms) j = true
      rw [postFlag_true_iff _ _ (hlen1 ms j hj)]
      refine ⟨i, hlen1 ms i hi, by omega, ?_⟩
      rw [intersectsBox_symm]
      exact hint
  · intro ms i hi hno
    rw [checkAll_true_getD ms i hi]
    show postFlag (updateAllBoundingBoxes ms) i = false
    cases hb : postFlag (updateAllBoundingBoxes ms) i with
    | false => rfl
    | true =>
      exfalso
      obtain ⟨j, hj, hji, hint⟩ := (postFlag_true_iff _ _ (hlen1 ms i hi)).mp hb
      rw [length_updateAllBoundingBoxes] at hj
      rw [hno j hj hji] at hint
      exact Bool.noConfusion hint
  · intro ms
    exact checkAll_bool_iff ms
  · intro ms hlen
    cases hb : (checkAllCollisions true ms).1 with
    | false => rfl
    | true =>
      exfalso
      obtain ⟨i, j, hij, hj, _⟩ := (checkAll_bool_iff ms).mp hb
      omega
  · intro ms
    rfl

/-- Witness for C1: two overlapping 2×2×2 models at `(0,0)` and `(1,0)`
are both flagged after the pass, the pass reports a collision, a
singleton registry reports none, and a disabled pass reports none and
returns the list unchanged. -/
theorem C1_checkAllCollisions_spec_witness :
    ((checkAllCollisions true [sampleModel 1 0 0 false, sampleModel 2 1 0 false]).2.getD 0
        default).isColliding = true ∧
    ((checkAllCollisions true [sampleModel 1 0 0 false, sampleModel 2 1 0 false]).2.getD 1
        default).isColliding = true ∧
    (checkAllCollisions true [sampleModel 1 0 0 false]).1 = false ∧
    checkAllCollisions false [sampleModel 1 0 0 false, sampleModel 2 1 0 false] =
      (false, [sampleModel 1 0 0 false, sampleModel 2 1 0 false]) := by
  have h1 := C1_checkAllCollisions_spec.1 [sampleModel 1 0 0 false, sampleModel 2 1 0 false]
    0 1 (by decide) (by decide) (by with_unfolding_all decide)
  have h2 := C1_checkAllCollisions_spec.2.2.2.1 [sampleModel 1 0 0 false] (by decide)
  have h3 := C1_checkAllCollisions_spec.2.2.2.2
    [sampleModel 1 0 0 false, sampleModel 2 1 0 false]
  exact ⟨h1.1, h1.2, h2, h3⟩

/-- C1 counterexample: an enabled pass on two overlapping 2×2×2 models
flags both; a subsequent DISABLED pass returns `false` but the first
model still carries `isColliding = true` — the disabled branch of
`checkAllCollisions` (part_002:114–127) only calls
`setModelCollisionState`, which writes collision-mesh opacity and DOM
classes, never `model.isColliding`, so the claim's "every object's
`isColliding` is forced to `false`" fails on the code. -/
theorem C1_disabled_stale_flag_counterexample :
    ((checkAllCollisions false
        (checkAllCollisions true
          [sampleModel 1 0 0 false, sampleModel 2 1 0 false]).2).2.getD 0
        default).isColliding = true ∧
    (checkAllCollisions false
        (checkAllCollisions true
          [sampleModel 1 0 0 false, sampleModel 2 1 0 false]).2).1 = false :=
  ⟨by with_unfolding_all decide, rfl⟩

/-- C6 counterexample: two 2×2×2 boxes centred at `x = 0` and `x = 2`
share the face `x = 1` exactly; the engine's test (`THREE.Box3.
intersectsBox`) reports them as intersecting, the whole pass flags the
contact as a collision, while the strict test described by the spec
reports no intersection — so touching faces do NOT count as
non-colliding, refuting the claim as stated. -/
theorem C6_touching_faces_counterexample :
    intersectsBox (computeBoundingBox (sampleModel 1 0 0 false))
        (computeBoundingBox (sampleModel 2 2 0 false)) = true ∧
    specStrictIntersects (computeBoundingBox (sampleModel 1 0 0 false))
        (computeBoundingBox (sampleModel 2 2 0 false)) = false ∧
    (checkAllCollisions true [sampleModel 1 0 0 false, sampleModel 2 2 0 false]).1 = true :=
  ⟨by with_unfolding_all decide, by with_unfolding_all decide, by with_unfolding_all decide⟩

/-- C6 (amended): the pairwise AABB test reports intersection iff the
boxes overlap on all three axes under NON-strict comparison — it rules
intersection out only by strict separation, so two boxes whose faces
exactly touch (shared boundary coordinate) count as colliding. -/
theorem C6_intersectsBox_inclusive_overlap (a b : Box3) :
    intersectsBox a b = true ↔
      a.min.x ≤ b.max.x ∧ b.min.x ≤ a.max.x ∧ a.min.y ≤ b.max.y ∧ b.min.y ≤ a.max.y ∧
        a.min.z ≤ b.max.z ∧ b.min.z ≤ a.max.z :=
  intersectsBox_eq_true_iff a b

theorem setAxis_y_of_ne (v : Vec3) (axis : Axis) (q : ℚ) (h : axis ≠ Axis.y) :
    (Vec3.setAxis v axis q).y = v.y := by
  cases axis with
  | x => rfl
  | y => exact absurd rfl h
  | z => rfl

theorem updateModelPosition_cases (enabled : Bool) (pairs : List (ℕ × ℕ))
    (ts : TransformState) (ms : List Model) (modelId : ℕ) (axis : Axis) (value : ℚ) :
    (∃ model, axis = Axis.y ∧ findById ms modelId = some model ∧
      updateModelPosition enabled pairs ts ms modelId axis value =
        (true, setPositionById ms modelId { model.position with y := 0 })) ∨
    (updateModelPosition enabled pairs ts ms modelId axis value = (false, ms)) ∨
    (∃ model np, axis ≠ Axis.y ∧ findById ms modelId = some model ∧
      np.y = model.position.y ∧
      np = (if ts.moveConstraints.gridSnap ∧ (axis = Axis.x ∨ axis = Axis.z) then
          Vec3.setAxis (Vec3.setAxis model.position axis value) axis
            (gridSnapRound ts.moveConstraints.gridSize
              ((Vec3.setAxis model.position axis value).getAxis axis))
        else Vec3.setAxis model.position axis value) ∧
      updateModelPosition enabled pairs ts ms modelId axis value =
        checkMoveCollision enabled pairs ms modelId np model.position ts.moveConstraints) := by
  cases h0 : findById ms modelId with
  | none =>
    right; left
    simp [updateModelPosition, h0]
  | some model =>
    cases hgb : ts.gridBoundary with
    | none =>
      by_cases hy : axis = Axis.y
      · left
        exact ⟨model, hy, rfl, by simp [updateModelPosition, h0, hgb, hy]⟩
      · right; right
        refine ⟨model,
          (if ts.moveConstraints.gridSnap ∧ (axis = Axis.x ∨ axis = Axis.z) then
            Vec3.setAxis (Vec3.setAxis model.position axis value) axis
              (gridSnapRound ts.moveConstraints.gridSize
                ((Vec3.setAxis model.position axis value).getAxis axis))
          else Vec3.setAxis model.position axis value), hy, rfl, ?_, rfl, ?_⟩
        · split
          · rw [setAxis_y_of_ne _ _ _ hy, setAxis_y_of_ne _ _ _ hy]
          · rw [setAxis_y_of_ne _ _ _ hy]
        · simp [updateModelPosition, h0, hgb, hy]
    | some gb =>
      by_cases hy : axis = Axis.y
      · left
        exact ⟨model, hy, rfl, by simp [updateModelPosition, h0, hgb, hy]⟩
      · by_cases hx : axis = Axis.x ∧
            ((Vec3.setAxis model.position axis value).x <
              gb.min.x + max model.size.x model.size.z / 2 * model.scale ∨
             (Vec3.setAxis model.position axis value).x >
              gb.max.x - max model.size.x model.size.z / 2 * model.scale)
        · right; left
          obtain ⟨hax, hcond⟩ := hx
          subst hax
          rcases hcond with h | h
          · simp [updateModelPosition, h0, hgb, h]
          · simp [updateModelPosition, h0, hgb, h]
        · by_cases hz : axis = Axis.z ∧
              ((Vec3.setAxis model.position axis value).z <
                gb.min.z + max model.size.x model.size.z / 2 * model.scale ∨
               (Vec3.setAxis model.position axis value).z >
                gb.max.z - max model.size.x model.size.z / 2 * model.scale)
          · right; left
            obtain ⟨haz, hcond⟩ := hz
            subst haz
            rcases hcond with h | h
            · simp [updateModelPosition, h0, hgb, h]
            · simp [updateModelPosition, h0, hgb, h]
          · right; right
            refine ⟨model,
              (if ts.moveConstraints.gridSnap ∧ (axis = Axis.x ∨ axis = Axis.z) then
                Vec3.setAxis (Vec3.setAxis model.position axis value) axis
                  (gridSnapRound ts.moveConstraints.gridSize
                    ((Vec3.setAxis model.position axis value).getAxis axis))
              else Vec3.setAxis model.position axis value), hy, rfl, ?_, rfl, ?_⟩
            · split
              · rw [setAxis_y_of_ne _ _ _ hy, setAxis_y_of_ne _ _ _ hy]
              · rw [setAxis_y_of_ne _ _ _ hy]
            · simp [updateModelPosition, h0, hgb, hy, hx, hz]

/-- C3: a single-axis or combined X/Z position update that reports
failure leaves the whole model list — in particular the target's
position, rotation, scale and `isColliding` flag — exactly as it was
before the call, with the global collision flags recomputed to the
restored state (which, from a collision-stable pre-state, reproduces the
pre-call flags bit for bit).  Requires unique ids (the registry
guarantees them) and a collision-stable pre-state (every state the
managers publish after a collision pass is one). -/
theorem C3_rejected_update_rolls_back :
    ∀ (enabled : Bool) (pairs : List (ℕ × ℕ)) (ts : TransformState) (ms : List Model)
      (modelId : ℕ) (axis : Axis) (value x z : ℚ),
      (ms.map Model.id).Nodup → CheckStable ms →
      ((updateModelPosition enabled pairs ts ms modelId axis value).1 = false →
        (updateModelPosition enabled pairs ts ms modelId axis value).2 = ms) ∧
      ((updateModelXZPosition enabled pairs ts ms modelId x z).1 = false →
        (updateModelXZPosition enabled pairs ts ms modelId x z).2 = ms) := by
  intro enabled pairs ts ms modelId axis value x z hnd hst
  constructor
  · intro h1
    rcases updateModelPosition_cases enabled pairs ts ms modelId axis value with
      ⟨model, _, h0, heq⟩ | heq | ⟨model, np, _, h0, _, _, heq⟩
    · rw [heq] at h1
      simp at h1
    · rw [heq]
    · rw [heq] at h1 ⊢
      cases hcm : checkMoveCollision enabled pairs ms modelId np model.position
        ts.moveConstraints with
      | mk b out =>
        rw [hcm] at h1
        have hb : b = false := h1
        subst hb
        obtain ⟨he, hout⟩ := checkMove_false_inv hcm
        subst he
        show out = ms
        rw [hout]
        exact rollback_eq_of_stable hnd hst h0 np
  · intro h1
    cases h0 : findById ms modelId with
    | none =>
      simp only [updateModelXZPosition, h0]
    | some model =>
      simp only [updateModelXZPosition, h0] at h1 ⊢
      cases hcm : checkMoveCollision enabled pairs ms modelId (xzCandidate ts model x z)
        model.position ts.moveConstraints with
      | mk b out =>
        rw [hcm] at h1
        have hb : b = false := h1
        subst hb
        obtain ⟨he, hout⟩ := checkMove_false_inv hcm
        subst he
        show out = ms
        rw [hout]
        exact rollback_eq_of_stable hnd hst h0 (xzCandidate ts model x z)

/-- Witness for C3: two separated 2-cubes with consistent state; moving
model 1 onto model 2 with `allowCollisionMove = false` is rejected and
the final state equals the initial one exactly. -/
theorem C3_rejected_update_rolls_back_witness :
    (([sampleModel 1 0 0 false, sampleModel 2 5 0 false].map Model.id).Nodup) ∧
    CheckStable [sampleModel 1 0 0 false, sampleModel 2 5 0 false] ∧
    (updateModelPosition true [] ⟨none, ⟨false, 1/5, false, 1/2, some true⟩⟩
      [sampleModel 1 0 0 false, sampleModel 2 5 0 false] 1 Axis.x 5).1 = false ∧
    (updateModelPosition true [] ⟨none, ⟨false, 1/5, false, 1/2, some true⟩⟩
      [sampleModel 1 0 0 false, sampleModel 2 5 0 false] 1 Axis.x 5).2 =
      [sampleModel 1 0 0 false, sampleModel 2 5 0 false] := by
  refine ⟨by decide, by with_unfolding_all decide, by with_unfolding_all decide, ?_⟩
  exact (C3_rejected_update_rolls_back true [] ⟨none, ⟨false, 1/5, false, 1/2, some true⟩⟩
    [sampleModel 1 0 0 false, sampleModel 2 5 0 false] 1 Axis.x 5 0 0
    (by decide) (by with_unfolding_all decide)).1 (by with_unfolding_all decide)

theorem clampXZ_x_eq (gb : Box3) (buffer : ℚ) (p : Vec3) :
    (clampXZ gb buffer p).x =
      if p.x < gb.min.x + buffer then gb.min.x + buffer
      else if p.x > gb.max.x - buffer then gb.max.x - buffer
      else p.x := rfl

theorem clampXZ_z_eq (gb : Box3) (buffer : ℚ) (p : Vec3) :
    (clampXZ gb buffer p).z =
      if p.z < gb.min.z + buffer then gb.min.z + buffer
      else if p.z > gb.max.z - buffer then gb.max.z - buffer
      else p.z := rfl

/-- C4: a single-axis X (resp. Z) update whose candidate lies outside
`[min + buffer, max − buffer]` (buffer = max(width, depth)/2 × scale)
returns false with the state untouched; the combined X/Z update instead
clamps both coordinates into that range (when the range is nonempty) and
its boundary stage never rejects — the call reduces to the collision
gate on the clamped candidate; in particular, on boundary
`[0,10]×[0,10]` with buffer 1, a combined request of `(11, 5)` commits
at `x = 9`. -/
theorem C4_boundary_policy :
    (∀ (enabled : Bool) (pairs : List (ℕ × ℕ)) (ts : TransformState) (ms : List Model)
      (modelId : ℕ) (value : ℚ) (gb : Box3) (model : Model),
      ts.gridBoundary = some gb → findById ms modelId = some model →
      (value < gb.min.x + max model.size.x model.size.z / 2 * model.scale ∨
       value > gb.max.x - max model.size.x model.size.z / 2 * model.scale) →
      updateModelPosition enabled pairs ts ms modelId Axis.x value = (false, ms)) ∧
    (∀ (enabled : Bool) (pairs : List (ℕ × ℕ)) (ts : TransformState) (ms : List Model)
      (modelId : ℕ) (value : ℚ) (gb : Box3) (model : Model),
      ts.gridBoundary = some gb → findById ms modelId = some model →
      (value < gb.min.z + max model.size.x model.size.z / 2 * model.scale ∨
       value > gb.max.z - max model.size.x model.size.z / 2 * model.scale) →
      updateModelPosition enabled pairs ts ms modelId Axis.z value = (false, ms)) ∧
    (∀ (gb : Box3) (buffer : ℚ) (p : Vec3),
      gb.min.x + buffer ≤ gb.max.x - buffer → gb.min.z + buffer ≤ gb.max.z - buffer →
      (gb.min.x + buffer ≤ (clampXZ gb buffer p).x ∧
        (clampXZ gb buffer p).x ≤ gb.max.x - buffer) ∧
      (gb.min.z + buffer ≤ (clampXZ gb buffer p).z ∧
        (clampXZ gb buffer p).z ≤ gb.max.z - buffer)) ∧
    (∀ (enabled : Bool) (pairs : List (ℕ × ℕ)) (ts : TransformState) (ms : List Model)
      (modelId : ℕ) (x z : ℚ) (model : Model), findById ms modelId = some model →
      updateModelXZPosition enabled pairs ts ms modelId x z =
        checkMoveCollision enabled pairs ms modelId (xzCandidate ts model x z)
          model.position ts.moveConstraints) ∧
    ((updateModelXZPosition true [] ⟨some ⟨⟨0, 0, 0⟩, ⟨10, 0, 10⟩⟩, ⟨true, 1/5, false, 1/2, none⟩⟩
        [sampleModel 1 5 5 false] 1 11 5).1 = true ∧
      (findById (updateModelXZPosition true []
          ⟨some ⟨⟨0, 0, 0⟩, ⟨10, 0, 10⟩⟩, ⟨true, 1/5, false, 1/2, none⟩⟩
          [sampleModel 1 5 5 false] 1 11 5).2 1).map Model.position = some ⟨9, 0, 5⟩) := by
  refine ⟨?_, ?_, ?_, ?_, ?_, ?_⟩
  · intro enabled pairs ts ms modelId value gb model hgb h0 hcond
    rcases hcond with h | h <;>
      simp [updateModelPosition, h0, hgb, Vec3.setAxis, h]
  · intro enabled pairs ts ms modelId value gb model hgb h0 hcond
    rcases hcond with h | h <;>
      simp [updateModelPosition, h0, hgb, Vec3.setAxis, h]
  · intro gb buffer p hx hz
    constructor
    · rw [clampXZ_x_eq]
      constructor <;> split_ifs with h1 h2 <;> linarith
    · rw [clampXZ_z_eq]
      constructor <;> split_ifs with h1 h2 <;> linarith
  · intro enabled pairs ts ms modelId x z model h0
    simp only [updateModelXZPosition, h0]
  · with_unfolding_all decide
  · with_unfolding_all decide

/-- Witness for C4: on boundary `[0,10]²` with buffer 1, a single-axis
X request to 11 is rejected with no state change. -/
theorem C4_boundary_policy_witness :
    updateModelPosition true [] ⟨some ⟨⟨0, 0, 0⟩, ⟨10, 0, 10⟩⟩, ⟨true, 1/5, false, 1/2, none⟩⟩
      [sampleModel 1 5 5 false] 1 Axis.x 11 = (false, [sampleModel 1 5 5 false]) :=
  C4_boundary_policy.1 true [] ⟨some ⟨⟨0, 0, 0⟩, ⟨10, 0, 10⟩⟩, ⟨true, 1/5, false, 1/2, none⟩⟩
    [sampleModel 1 5 5 false] 1 11 ⟨⟨0, 0, 0⟩, ⟨10, 0, 10⟩⟩ (sampleModel 1 5 5 false) rfl
    (by with_unfolding_all decide) (Or.inr (by with_unfolding_all decide))

theorem checkMove_out_cases (e : Bool) (pairs : List (ℕ × ℕ)) (ms : List Model)
    (mid : ℕ) (np pp : Vec3) (cs : MoveConstraints) :
    (checkMoveCollision e pairs ms mid np pp cs).2 = ms ∨
    (checkMoveCollision e pairs ms mid np pp cs).2 = (tentativeMove e ms mid np).2 ∨
    (checkMoveCollision e pairs ms mid np pp cs).2 =
      rollbackMove e (tentativeMove e ms mid np).2 mid pp := by
  cases e with
  | false => left; rfl
  | true =>
    unfold checkMoveCollision
    simp only [Bool.not_true]
    rw [if_neg (by simp)]
    cases hf : findById (tentativeMove true ms mid np).2 mid with
    | none =>
      right; left
      simp only [hf]
    | some model =>
      simp only [hf]
      by_cases h1 : ((tentativeMove true ms mid np).1 && model.isColliding) = true
      · rw [if_pos h1]
        by_cases h2 : (cs.respectInitialCollision.getD true && model.initialCollisionState &&
            !hasNewCollision pairs (tentativeMove true ms mid np).2 (preMoveNeighbors ms mid np)
              (getCollidingModels (tentativeMove true ms mid np).2 model) model) = true
        · rw [if_pos h2]
          right; left
          rfl
        · rw [if_neg h2]
          by_cases h3 : (!cs.allowCollisionMove) = true
          · rw [if_pos h3]
            right; right
            rfl
          · rw [if_neg h3]
            right; left
            rfl
      · rw [if_neg h1]
        right; left
        rfl

theorem yzero_map {ms : List Model} (g : Model → Model)
    (hg : ∀ m, m.position.y = 0 → (g m).position.y = 0) (h : YZero ms) :
    YZero (ms.map g) := by
  intro m' hm'
  rw [List.mem_map] at hm'
  obtain ⟨a, ha, rfl⟩ := hm'
  exact hg a (h a ha)

theorem forall₂_mem_right {R : Model → Model → Prop} :
    ∀ {l l' : List Model}, List.Forall₂ R l l' → ∀ {b : Model}, b ∈ l' → ∃ a ∈ l, R a b := by
  intro l l' h
  induction h with
  | nil =>
    intro b hb
    exact absurd hb (List.not_mem_nil b)
  | cons hR hl ih =>
    rename_i x y l₁ l₂
    intro b hb
    rcases List.mem_cons.mp hb with rfl | hb2
    · exact ⟨x, List.mem_cons_self x l₁, hR⟩
    · obtain ⟨a, ha, hab⟩ := ih hb2
      exact ⟨a, List.mem_cons_of_mem x ha, hab⟩

theorem yzero_checkAll (e : Bool) {ms : List Model} (h : YZero ms) :
    YZero (checkAllCollisions e ms).2 := by
  intro m' hm'
  obtain ⟨a, ha, hab⟩ := forall₂_mem_right (checkAll_forall₂ e ms) hm'
  have hpos : m'.position = a.position := congrArg ModelCore.position hab
  rw [hpos]
  exact h a ha

theorem yzero_setPositionById {ms : List Model} (mid : ℕ) {p : Vec3} (hp : p.y = 0)
    (h : YZero ms) : YZero (setPositionById ms mid p) := by
  unfold setPositionById
  refine yzero_map _ ?_ h
  intro m hm
  by_cases hid : m.id = mid
  · rw [if_pos hid]
    exact hp
  · rw [if_neg hid]
    exact hm

theorem yzero_updateBoundingBoxById {ms : List Model} (mid : ℕ) (h : YZero ms) :
    YZero (updateBoundingBoxById ms mid) := by
  unfold updateBoundingBoxById
  refine yzero_map _ ?_ h
  intro m hm
  by_cases hid : m.id = mid
  · rw [if_pos hid]
    exact hm
  · rw [if_neg hid]
    exact hm

theorem yzero_setRotationById {ms : List Model} (mid : ℕ) (r : ℚ) (h : YZero ms) :
    YZero (setRotationById ms mid r) := by
  unfold setRotationById
  refine yzero_map _ ?_ h
  intro m hm
  by_cases hid : m.id = mid
  · rw [if_pos hid]
    exact hm
  · rw [if_neg hid]
    exact hm

theorem yzero_setScaleById {ms : List Model} (mid : ℕ) (s : ℚ) (h : YZero ms) :
    YZero (setScaleById ms mid s) := by
  unfold setScaleById
  refine yzero_map _ ?_ h
  intro m hm
  by_cases hid : m.id = mid
  · rw [if_pos hid]
    exact hm
  · rw [if_neg hid]
    exact hm

theorem yzero_tentativeMove (e : Bool) {ms : List Model} (mid : ℕ) {np : Vec3}
    (hnp : np.y = 0) (h : YZero ms) : YZero (tentativeMove e ms mid np).2 := by
  unfold tentativeMove
  exact yzero_checkAll e (yzero_updateBoundingBoxById mid (yzero_setPositionById mid hnp h))

theorem yzero_rollbackMove (e : Bool) {l : List Model} (mid : ℕ) {pp : Vec3}
    (hpp : pp.y = 0) (h : YZero l) : YZero (rollbackMove e l mid pp) := by
  unfold rollbackMove
  exact yzero_checkAll e (yzero_updateBoundingBoxById mid (yzero_setPositionById mid hpp h))

theorem yzero_checkMove (e : Bool) (pairs : List (ℕ × ℕ)) {ms : List Model} (mid : ℕ)
    {np pp : Vec3} (cs : MoveConstraints) (hnp : np.y = 0) (hpp : pp.y = 0)
    (h : YZero ms) : YZero (checkMoveCollision e pairs ms mid np pp cs).2 := by
  rcases checkMove_out_cases e pairs ms mid np pp cs with ho | ho | ho <;> rw [ho]
  · exact h
  · exact yzero_tentativeMove e mid hnp h
  · exact yzero_rollbackMove e mid hpp (yzero_tentativeMove e mid hnp h)

theorem xzCandidate_y (ts : TransformState) (model : Model) (x z : ℚ) :
    (xzCandidate ts model x z).y = 0 := by
  unfold xzCandidate xzPreSnap
  split <;> split <;> rfl

theorem yzero_updateXZ (enabled : Bool) (pairs : List (ℕ × ℕ)) (ts : TransformState)
    {ms : List Model} (modelId : ℕ) (x z : ℚ) (h : YZero ms) :
    YZero (updateModelXZPosition enabled pairs ts ms modelId x z).2 := by
  cases h0 : findById ms modelId with
  | none =>
    simp only [updateModelXZPosition, h0]
    exact h
  | some model =>
    simp only [updateModelXZPosition, h0]
    exact yzero_checkMove enabled pairs modelId ts.moveConstraints (xzCandidate_y ts model x z)
      (h model (List.mem_of_find?_eq_some h0)) h

/-- C5: the floor lock.  A vertical (`y`-axis) position update forces
`y` to 0 and returns success immediately; and every mutating operation —
single-axis update, combined X/Z update, keyboard nudge, rotation,
scale — preserves the invariant that every model's `position.y` is
exactly 0 (whether it succeeds or rolls back). -/
theorem C5_floor_lock :
    (∀ (enabled : Bool) (pairs : List (ℕ × ℕ)) (ts : TransformState) (ms : List Model)
      (modelId : ℕ) (value : ℚ) (model : Model), findById ms modelId = some model →
      updateModelPosition enabled pairs ts ms modelId Axis.y value =
        (true, setPositionById ms modelId { model.position with y := 0 })) ∧
    (∀ (enabled : Bool) (pairs : List (ℕ × ℕ)) (ts : TransformState) (ms : List Model)
      (modelId : ℕ) (axis : Axis) (value : ℚ), YZero ms →
      YZero (updateModelPosition enabled pairs ts ms modelId axis value).2) ∧
    (∀ (enabled : Bool) (pairs : List (ℕ × ℕ)) (ts : TransformState) (ms : List Model)
      (modelId : ℕ) (x z : ℚ), YZero ms →
      YZero (updateModelXZPosition enabled pairs ts ms modelId x z).2) ∧
    (∀ (enabled : Bool) (pairs : List (ℕ × ℕ)) (ts : TransformState) (ms : List Model)
      (sel : Option ℕ) (dx dz : ℚ), YZero ms →
      YZero (moveSelectedModelByDelta enabled pairs ts ms sel dx dz).2) ∧
    (∀ (enabled : Bool) (ts : TransformState) (ms : List Model) (modelId : ℕ)
      (angle : ℚ), YZero ms → YZero (rotateModel enabled ts ms modelId angle).2) ∧
    (∀ (enabled : Bool) (ts : TransformState) (ms : List Model) (modelId : ℕ)
      (s : ℚ), YZero ms → YZero (setModelScale enabled ts ms modelId s).2) := by
  refine ⟨?_, ?_, ?_, ?_, ?_, ?_⟩
  · intro enabled pairs ts ms modelId value model h0
    cases hgb : ts.gridBoundary <;> simp [updateModelPosition, h0, hgb]
  · intro enabled pairs ts ms modelId axis value h
    rcases updateModelPosition_cases enabled pairs ts ms modelId axis value with
      ⟨model, _, h0, heq⟩ | heq | ⟨model, np, _, h0, hnpy, _, heq⟩ <;> rw [heq]
    · exact yzero_setPositionById modelId rfl h
    · exact h
    · refine yzero_checkMove enabled pairs modelId ts.moveConstraints ?_ ?_ h
      · rw [hnpy]
        exact h model (List.mem_of_find?_eq_some h0)
      · exact h model (List.mem_of_find?_eq_some h0)
  · intro enabled pairs ts ms modelId x z h
    exact yzero_updateXZ enabled pairs ts modelId x z h
  · intro enabled pairs ts ms sel dx dz h
    cases sel with
    | none => exact h
    | some mid =>
      cases h0 : findById ms mid with
      | none =>
        simp only [moveSelectedModelByDelta, h0]
        exact h
      | some model =>
        simp only [moveSelectedModelByDelta, h0]
        exact yzero_updateXZ enabled pairs ts model.id _ _ h
  · intro enabled ts ms modelId angle h
    cases h0 : findById ms modelId with
    | none =>
      simp only [rotateModel, h0]
      exact h
    | some model =>
      simp only [rotateModel, h0]
      split
      · exact yzero_checkAll enabled (yzero_updateBoundingBoxById modelId
          (yzero_setRotationById modelId _ (yzero_checkAll enabled
            (yzero_updateBoundingBoxById modelId (yzero_setRotationById modelId _ h)))))
      · exact yzero_checkAll enabled (yzero_updateBoundingBoxById modelId
          (yzero_setRotationById modelId _ h))
  · intro enabled ts ms modelId s h
    cases h0 : findById ms modelId with
    | none =>
      simp only [setModelScale, h0]
      exact h
    | some model =>
      simp only [setModelScale, h0]
      split
      · exact h
      · split
        · exact yzero_updateBoundingBoxById modelId (yzero_setScaleById modelId _
            (yzero_updateBoundingBoxById modelId (yzero_setScaleById modelId _ h)))
        · split
          · exact yzero_checkAll enabled (yzero_updateBoundingBoxById modelId
              (yzero_setScaleById modelId _ (yzero_checkAll enabled
                (yzero_updateBoundingBoxById modelId (yzero_setScaleById modelId _ h)))))
          · exact yzero_checkAll enabled (yzero_updateBoundingBoxById modelId
              (yzero_setScaleById modelId _ h))

/-- Witness for C5: a vertical update forces `y = 0` and succeeds, and a
combined update on a concrete floor-locked state stays floor-locked. -/
theorem C5_floor_lock_witness :
    updateModelPosition true [] ⟨none, ⟨true, 1/5, false, 1/2, none⟩⟩
      [sampleModel 1 2 3 false] 1 Axis.y 7 =
      (true, setPositionById [sampleModel 1 2 3 false] 1
        { (sampleModel 1 2 3 false).position with y := 0 }) ∧
    YZero (updateModelXZPosition true [] ⟨none, ⟨true, 1/5, false, 1/2, none⟩⟩
      [sampleModel 1 2 3 false] 1 4 5).2 := by
  constructor
  · exact C5_floor_lock.1 true [] _ _ 1 7 _ (by with_unfolding_all decide)
  · exact C5_floor_lock.2.2.1 true [] _ _ 1 4 5 (by with_unfolding_all decide)

theorem scale_roundtrip (m : Model) (s : ℚ) (hcons : m.boundingBox = computeBoundingBox m) :
    updateModelBoundingBox
      { updateModelBoundingBox { m with scale := s } with scale := m.scale } = m := by
  have h1 : updateModelBoundingBox
      { updateModelBoundingBox { m with scale := s } with scale := m.scale } =
      { m with boundingBox := computeBoundingBox m } := rfl
  rw [h1, ← hcons]

theorem checkMove_true_inv {pairs : List (ℕ × ℕ)} {ms : List Model} {mid : ℕ}
    {np pp : Vec3} {cs : MoveConstraints} {out : List Model}
    (h : checkMoveCollision true pairs ms mid np pp cs = (true, out)) :
    out = (tentativeMove true ms mid np).2 := by
  unfold checkMoveCollision at h
  simp only [Bool.not_true] at h
  rw [if_neg (by simp)] at h
  split at h
  · simp only [Prod.mk.injEq] at h
    exact h.2.symm
  · split at h
    · split at h
      · simp only [Prod.mk.injEq] at h
        exact h.2.symm
      · split at h
        · simp at h
        · simp only [Prod.mk.injEq] at h
          exact h.2.symm
    · simp only [Prod.mk.injEq] at h
      exact h.2.symm

theorem findById_setPositionById {ms : List Model} {mid : ℕ} {model : Model}
    (h0 : findById ms mid = some model) (np : Vec3) :
    findById (setPositionById ms mid np) mid = some { model with position := np } := by
  unfold setPositionById
  rw [findById_map_idPreserving _ (fun m => by by_cases h : m.id = mid <;> simp [h]), h0]
  have hid : model.id = mid := by simpa using List.find?_some h0
  simp [hid]

theorem findById_tentativeMove (e : Bool) {ms : List Model} {mid : ℕ} {model : Model}
    (h0 : findById ms mid = some model) (np : Vec3) :
    ∃ m', findById (tentativeMove e ms mid np).2 mid = some m' ∧ m'.position = np ∧
      m'.initialCollisionState = model.initialCollisionState ∧ m'.id = model.id := by
  have h1 := findById_setPositionById h0 np
  have h2 : findById (updateBoundingBoxById (setPositionById ms mid np) mid) mid =
      some (updateModelBoundingBox { model with position := np }) := by
    unfold updateBoundingBoxById
    rw [findById_map_idPreserving _
      (fun m => by by_cases h : m.id = mid <;> simp [h, updateModelBoundingBox]), h1]
    have hid : model.id = mid := by simpa using List.find?_some h0
    simp [hid]
  obtain ⟨m', hm', hR⟩ := forall₂_findById (R := fun a b => b.core = a.core)
    (fun a b h => congrArg ModelCore.id h)
    (checkAll_forall₂ e (updateBoundingBoxById (setPositionById ms mid np) mid)) mid _ h2
  refine ⟨m', hm', ?_, ?_, ?_⟩
  · exact congrArg ModelCore.position hR
  · exact congrArg ModelCore.initialCollisionState hR
  · exact congrArg ModelCore.id hR

theorem xzCandidate_snap_x (ts : TransformState) (model : Model) (x z : ℚ)
    (hsnap : ts.moveConstraints.gridSnap = true) :
    (xzCandidate ts model x z).x =
      gridSnapRound ts.moveConstraints.gridSize (xzPreSnap ts model x z).x := by
  unfold xzCandidate
  rw [if_pos hsnap]

theorem xzCandidate_snap_z (ts : TransformState) (model : Model) (x z : ℚ)
    (hsnap : ts.moveConstraints.gridSnap = true) :
    (xzCandidate ts model x z).z =
      gridSnapRound ts.moveConstraints.gridSize (xzPreSnap ts model x z).z := by
  unfold xzCandidate
  rw [if_pos hsnap]

/-- C8 counterexample: with grid snap 0.5 enabled, a single-axis X
update of a model standing at `z = 0.3` succeeds and commits with `z`
still `0.3` — not the nearest multiple of 0.5 (which is `0.5`): the
single-axis path snaps only the updated axis, so the claim's "X and Z
are each the nearest multiple" fails for the unmodified coordinate. -/
theorem C8_single_axis_leaves_other_coordinate :
    (updateModelPosition true [] ⟨none, ⟨true, 1/5, true, 1/2, none⟩⟩
      [sampleModel 1 0 (3/10) false] 1 Axis.x (123/100)).1 = true ∧
    (findById (updateModelPosition true [] ⟨none, ⟨true, 1/5, true, 1/2, none⟩⟩
      [sampleModel 1 0 (3/10) false] 1 Axis.x (123/100)).2 1).map Model.position =
      some ⟨1, 0, 3/10⟩ ∧
    gridSnapRound (1/2) (3/10) = 1/2 ∧ (3/10 : ℚ) ≠ (1/2 : ℚ) :=
  ⟨by with_unfolding_all decide, by with_unfolding_all decide,
   by with_unfolding_all decide, by with_unfolding_all decide⟩

/-- C8 (amended): `Math.round(v/gridSize)*gridSize` is a multiple of the
step within step/2 of the input (nearest-multiple rounding, ties toward
+∞); a committed combined X/Z update with snap on commits both
coordinates at the snapped post-clamp candidates; a committed
single-axis X update with snap on commits X at the snapped candidate and
leaves Z exactly as it was; and with `gridSnapSize = 0.5` a combined
request of `(1.23, 0.7)` commits at `(1.0, 0.5)`. -/
theorem C8_grid_snap_rounding :
    (∀ (s v : ℚ), 0 < s → ∃ k : ℤ, gridSnapRound s v = k * s ∧
      |v - gridSnapRound s v| ≤ s / 2) ∧
    (∀ (pairs : List (ℕ × ℕ)) (ts : TransformState) (ms : List Model) (modelId : ℕ)
      (x z : ℚ) (model m' : Model),
      ts.moveConstraints.gridSnap = true →
      findById ms modelId = some model →
      (updateModelXZPosition true pairs ts ms modelId x z).1 = true →
      findById (updateModelXZPosition true pairs ts ms modelId x z).2 modelId = some m' →
      m'.position.x = gridSnapRound ts.moveConstraints.gridSize (xzPreSnap ts model x z).x ∧
      m'.position.z = gridSnapRound ts.moveConstraints.gridSize (xzPreSnap ts model x z).z) ∧
    (∀ (pairs : List (ℕ × ℕ)) (ts : TransformState) (ms : List Model) (modelId : ℕ)
      (value : ℚ) (model m' : Model),
      ts.moveConstraints.gridSnap = true →
      findById ms modelId = some model →
      (updateModelPosition true pairs ts ms modelId Axis.x value).1 = true →
      findById (updateModelPosition true pairs ts ms modelId Axis.x value).2 modelId =
        some m' →
      m'.position.x = gridSnapRound ts.moveConstraints.gridSize value ∧
      m'.position.z = model.position.z) ∧
    ((updateModelXZPosition true [] ⟨none, ⟨true, 1/5, true, 1/2, none⟩⟩
        [sampleModel 1 5 5 false] 1 (123/100) (7/10)).1 = true ∧
      (findById (updateModelXZPosition true [] ⟨none, ⟨true, 1/5, true, 1/2, none⟩⟩
        [sampleModel 1 5 5 false] 1 (123/100) (7/10)).2 1).map Model.position =
        some ⟨1, 0, 1/2⟩) := by
  refine ⟨?_, ?_, ?_, by with_unfolding_all decide, by with_unfolding_all decide⟩
  · intro s v hs
    refine ⟨round (v / s), rfl, ?_⟩
    have hr := abs_sub_round (v / s)
    have hne : s ≠ 0 := ne_of_gt hs
    have heq : v - gridSnapRound s v = (v / s - round (v / s)) * s := by
      unfold gridSnapRound
      field_simp
      ring
    rw [heq, abs_mul, abs_of_pos hs]
    calc |v / s - ↑(round (v / s))| * s ≤ 1 / 2 * s :=
          mul_le_mul_of_nonneg_right hr (le_of_lt hs)
      _ = s / 2 := by ring
  · intro pairs ts ms modelId x z model m' hsnap h0 hsucc hfind
    simp only [updateModelXZPosition, h0] at hsucc hfind
    cases hcm : checkMoveCollision true pairs ms modelId (xzCandidate ts model x z)
      model.position ts.moveConstraints with
    | mk b out =>
      rw [hcm] at hsucc hfind
      have hb : b = true := hsucc
      subst hb
      have hout := checkMove_true_inv hcm
      rw [hout] at hfind
      obtain ⟨m'', hm'', hpos, _, _⟩ :=
        findById_tentativeMove true h0 (xzCandidate ts model x z)
      rw [hm''] at hfind
      have hmm : m' = m'' := (Option.some_inj.mp hfind).symm
      subst hmm
      rw [hpos]
      exact ⟨xzCandidate_snap_x ts model x z hsnap, xzCandidate_snap_z ts model x z hsnap⟩
  · intro pairs ts ms modelId value model m' hsnap h0 hsucc hfind
    rcases updateModelPosition_cases true pairs ts ms modelId Axis.x value with
      ⟨model2, hy, _, _⟩ | heq | ⟨model2, np, _, h02, _, hnp, heq⟩
    · exact absurd hy (by simp)
    · rw [heq] at hsucc
      simp at hsucc
    · have hmeq : model2 = model := by
        rw [h0] at h02
        exact (Option.some_inj.mp h02).symm
      subst hmeq
      rw [heq] at hsucc hfind
      cases hcm : checkMoveCollision true pairs ms modelId np model2.position
        ts.moveConstraints with
      | mk b out =>
        rw [hcm] at hsucc hfind
        have hb : b = true := hsucc
        subst hb
        have hout := checkMove_true_inv hcm
        rw [hout] at hfind
        obtain ⟨m'', hm'', hpos, _, _⟩ := findById_tentativeMove true h02 np
        rw [hm''] at hfind
        have hmm : m' = m'' := (Option.some_inj.mp hfind).symm
        subst hmm
        rw [hpos, hnp]
        rw [if_pos ⟨hsnap, Or.inl rfl⟩]
        constructor <;> rfl

/-- Witness for C8: rounding 1.23 to step 0.5 gives 1.0, a multiple of
0.5 within 0.25 of the input. -/
theorem C8_grid_snap_rounding_witness :
    (0 : ℚ) < 1/2 ∧ ∃ k : ℤ, gridSnapRound (1/2) (123/100) = k * (1/2) ∧
      |(123/100 : ℚ) - gridSnapRound (1/2) (123/100)| ≤ (1/2) / 2 := by
  refine ⟨by norm_num, ?_⟩
  exact C8_grid_snap_rounding.1 (1/2) (123/100) (by norm_num)

/-- C9: a non-positive scale request is rejected with no state change;
and when a boundary is set and the rescaled footprint (buffer =
max(new width, new depth)/2) no longer fits at the current position, the
scale is rolled back and the call fails before any collision pass — the
returned state equals the input state exactly (pure accept/reject, no
clamping), given consistent bounding boxes and unique ids. -/
theorem C9_scale_validation :
    (∀ (enabled : Bool) (ts : TransformState) (ms : List Model) (modelId : ℕ) (s : ℚ),
      s ≤ 0 → setModelScale enabled ts ms modelId s = (false, ms)) ∧
    (∀ (enabled : Bool) (ts : TransformState) (ms : List Model) (modelId : ℕ) (s : ℚ)
      (gb : Box3) (model : Model),
      (ms.map Model.id).Nodup →
      (∀ m ∈ ms, m.boundingBox = computeBoundingBox m) →
      ts.gridBoundary = some gb →
      findById ms modelId = some model →
      ¬ s ≤ 0 →
      (model.position.x - max (model.size.x * s) (model.size.z * s) / 2 < gb.min.x ∨
       model.position.x + max (model.size.x * s) (model.size.z * s) / 2 > gb.max.x ∨
       model.position.z - max (model.size.x * s) (model.size.z * s) / 2 < gb.min.z ∨
       model.position.z + max (model.size.x * s) (model.size.z * s) / 2 > gb.max.z) →
      setModelScale enabled ts ms modelId s = (false, ms)) := by
  constructor
  · intro enabled ts ms modelId s hs
    cases h0 : findById ms modelId with
    | none => simp [setModelScale, h0]
    | some model => simp [setModelScale, h0, hs]
  · intro enabled ts ms modelId s gb model hnd hcons hgb h0 hs hcond
    simp only [setModelScale, h0, hgb]
    rw [if_neg hs]
    have hbr : (decide (model.position.x - max (model.size.x * s) (model.size.z * s) / 2 <
          gb.min.x) ||
        decide (model.position.x + max (model.size.x * s) (model.size.z * s) / 2 > gb.max.x) ||
        decide (model.position.z - max (model.size.x * s) (model.size.z * s) / 2 < gb.min.z) ||
        decide (model.position.z + max (model.size.x * s) (model.size.z * s) / 2 > gb.max.z)) =
          true := by
      rcases hcond with h | h | h | h <;> simp [h]
    rw [if_pos hbr]
    refine Prod.ext rfl ?_
    show updateBoundingBoxById (setScaleById (updateBoundingBoxById
      (setScaleById ms modelId s) modelId) modelId model.scale) modelId = ms
    unfold updateBoundingBoxById setScaleById
    rw [List.map_map, List.map_map, List.map_map]
    refine Eq.trans (List.map_congr_left ?_) (List.map_id ms)
    intro m hm
    by_cases hid : m.id = modelId
    · have hmeq : m = model := eq_found_of_nodup hnd h0 m hm hid
      simp only [Function.comp]
      rw [if_pos hid,
        if_pos (show ({ m with scale := s } : Model).id = modelId from hid),
        if_pos (show (updateModelBoundingBox { m with scale := s }).id = modelId from hid),
        if_pos (show ({ updateModelBoundingBox { m with scale := s } with
          scale := model.scale } : Model).id = modelId from hid)]
      rw [← hmeq]
      exact scale_roundtrip m s (hcons m hm)
    · simp [Function.comp, hid]

/-- Witness for C9: scaling the 2-cube at `(9,5)` on boundary `[0,10]²`
to 3 (buffer 3 exceeds the remaining 1 of room) is rejected with the
state returned untouched; a scale of 0 is rejected outright. -/
theorem C9_scale_validation_witness :
    setModelScale true ⟨some ⟨⟨0, 0, 0⟩, ⟨10, 0, 10⟩⟩, ⟨true, 1/5, false, 1/2, none⟩⟩
      [sampleModel 1 9 5 false] 1 3 = (false, [sampleModel 1 9 5 false]) ∧
    setModelScale true ⟨some ⟨⟨0, 0, 0⟩, ⟨10, 0, 10⟩⟩, ⟨true, 1/5, false, 1/2, none⟩⟩
      [sampleModel 1 9 5 false] 1 0 = (false, [sampleModel 1 9 5 false]) := by
  constructor
  · exact C9_scale_validation.2 true _ [sampleModel 1 9 5 false] 1 3
      ⟨⟨0, 0, 0⟩, ⟨10, 0, 10⟩⟩ (sampleModel 1 9 5 false) (by decide)
      (by with_unfolding_all decide) rfl (by with_unfolding_all decide) (by norm_num)
      (Or.inr (Or.inl (by with_unfolding_all decide)))
  · exact C9_scale_validation.1 true _ _ 1 0 le_rfl

/-- C10 counterexample: with collision detection disabled, a single-axis
X update whose candidate violates the boundary still returns `false`
(the boundary check precedes the collision gate), refuting "the update
returns true" as a universal statement for disabled-detection updates. -/
theorem C10_disabled_update_can_return_false :
    updateModelPosition false [] ⟨some ⟨⟨0, 0, 0⟩, ⟨10, 0, 10⟩⟩, ⟨true, 1/5, false, 1/2, none⟩⟩
      [sampleModel 1 5 5 false] 1 Axis.x 11 = (false, [sampleModel 1 5 5 false]) := by
  with_unfolding_all decide

/-- C10 (amended): while collision detection is disabled the collision
gate returns success immediately without writing the candidate position,
so a combined X/Z update on a registered object returns `true` with the
state untouched, a single-axis X/Z update never changes the state
either, and a single-axis X update that passes the boundary check (or
runs without a boundary) returns `true` with the state untouched —
reported success commits nothing. -/
theorem C10_disabled_commits_nothing :
    (∀ (pairs : List (ℕ × ℕ)) (ms : List Model) (mid : ℕ) (np pp : Vec3)
      (cs : MoveConstraints), checkMoveCollision false pairs ms mid np pp cs = (true, ms)) ∧
    (∀ (pairs : List (ℕ × ℕ)) (ts : TransformState) (ms : List Model) (modelId : ℕ)
      (x z : ℚ) (model : Model), findById ms modelId = some model →
      updateModelXZPosition false pairs ts ms modelId x z = (true, ms)) ∧
    (∀ (pairs : List (ℕ × ℕ)) (ts : TransformState) (ms : List Model) (modelId : ℕ)
      (axis : Axis) (value : ℚ), axis = Axis.x ∨ axis = Axis.z →
      (updateModelPosition false pairs ts ms modelId axis value).2 = ms) ∧
    (∀ (pairs : List (ℕ × ℕ)) (ts : TransformState) (ms : List Model) (modelId : ℕ)
      (value : ℚ) (model : Model), findById ms modelId = some model →
      (∀ gb, ts.gridBoundary = some gb →
        ¬(value < gb.min.x + max model.size.x model.size.z / 2 * model.scale ∨
          value > gb.max.x - max model.size.x model.size.z / 2 * model.scale)) →
      updateModelPosition false pairs ts ms modelId Axis.x value = (true, ms)) := by
  refine ⟨?_, ?_, ?_, ?_⟩
  · intro pairs ms mid np pp cs
    rfl
  · intro pairs ts ms modelId x z model h0
    simp only [updateModelXZPosition, h0]
    rfl
  · intro pairs ts ms modelId axis value hxz
    rcases updateModelPosition_cases false pairs ts ms modelId axis value with
      ⟨model, hy, _, _⟩ | heq | ⟨model, np, _, _, _, _, heq⟩
    · rcases hxz with h | h <;> rw [h] at hy <;> exact absurd hy (by simp)
    · rw [heq]
    · rw [heq]
      rfl
  · intro pairs ts ms modelId value model h0 hno
    cases hgb : ts.gridBoundary with
    | none =>
      simp [updateModelPosition, h0, hgb]
      rfl
    | some gb =>
      have hcond := hno gb hgb
      push_neg at hcond
      simp only [updateModelPosition, h0, hgb]
      rw [if_neg (by simp), if_neg ?hx, if_neg (by simp)]
      case hx =>
        intro hc
        rcases hc.2 with h | h
        · exact absurd (by simpa [Vec3.setAxis] using h) (not_lt.mpr hcond.1)
        · exact absurd (by simpa [Vec3.setAxis] using h) (not_lt.mpr hcond.2)
      rfl

/-- Witness for C10: a combined update while disabled reports success
and leaves the single registered model exactly in place. -/
theorem C10_disabled_commits_nothing_witness :
    updateModelXZPosition false [] ⟨none, ⟨true, 1/5, false, 1/2, none⟩⟩
      [sampleModel 1 5 5 false] 1 7 8 = (true, [sampleModel 1 5 5 false]) :=
  C10_disabled_commits_nothing.2.1 [] ⟨none, ⟨true, 1/5, false, 1/2, none⟩⟩
    [sampleModel 1 5 5 false] 1 7 8 (sampleModel 1 5 5 false) (by with_unfolding_all decide)

theorem contains_eq_true_iff (l : List ℕ) (a : ℕ) : l.contains a = true ↔ a ∈ l := by
  rw [List.contains_eq_any_beq, List.any_eq_true]
  constructor
  · rintro ⟨x, hx, he⟩
    rw [beq_iff_eq] at he
    rw [he]
    exact hx
  · intro h
    exact ⟨a, h, by simp⟩

/-- C2: the initial-collision grandfathering in `checkMoveCollision`.
(a) If the tentative move leaves the target colliding,
`respectInitialCollision` is set to true, the target's
`initialCollisionState` is true, and every newly-colliding neighbour
(intersecting after the move but not before) is a tracked
initial-collision pair with the target, then the move commits: the call
returns `true` with the post-move state, the target standing at the new
position despite the collision.
(b) If instead some neighbour colliding after the move, and not before,
is not a tracked initial pair (a previously non-overlapping third
object) and `allowCollisionMove` is false, the move is rejected: the
call returns `false` with the rolled-back state, the target restored to
the previous position. -/
theorem C2_initial_collision_tolerance :
    (∀ (pairs : List (ℕ × ℕ)) (ms : List Model) (mid : ℕ) (np pp : Vec3)
      (cs : MoveConstraints) (model0 model3 : Model),
      findById ms mid = some model0 →
      cs.respectInitialCollision = some true →
      model0.initialCollisionState = true →
      findById (tentativeMove true ms mid np).2 mid = some model3 →
      model3.isColliding = true →
      (∀ nid ∈ getCollidingModels (tentativeMove true ms mid np).2 model3,
        nid ∉ preMoveNeighbors ms mid np →
        ∀ o, findById (tentativeMove true ms mid np).2 nid = some o →
        isInitialCollisionPair pairs model3 o = true) →
      checkMoveCollision true pairs ms mid np pp cs =
        (true, (tentativeMove true ms mid np).2) ∧
      model3.position = np) ∧
    (∀ (pairs : List (ℕ × ℕ)) (ms : List Model) (mid : ℕ) (np pp : Vec3)
      (cs : MoveConstraints) (model3 o : Model) (nid : ℕ),
      cs.allowCollisionMove = false →
      findById (tentativeMove true ms mid np).2 mid = some model3 →
      model3.isColliding = true →
      nid ∈ getCollidingModels (tentativeMove true ms mid np).2 model3 →
      nid ∉ preMoveNeighbors ms mid np →
      findById (tentativeMove true ms mid np).2 nid = some o →
      isInitialCollisionPair pairs model3 o = false →
      checkMoveCollision true pairs ms mid np pp cs =
        (false, rollbackMove true (tentativeMove true ms mid np).2 mid pp) ∧
      ∃ m3, findById (rollbackMove true (tentativeMove true ms mid np).2 mid pp) mid =
        some m3 ∧ m3.position = pp) := by
  constructor
  · intro pairs ms mid np pp cs model0 model3 h0 hresp hinit h3 hcoll hnonew
    have hmem : model3 ∈ (tentativeMove true ms mid np).2 := List.mem_of_find?_eq_some h3
    have hr1 : (tentativeMove true ms mid np).1 = true :=
      checkAll_flag_imp_bool _ model3 hmem hcoll
    have hic3 : model3.initialCollisionState = true := by
      obtain ⟨m', hm', _, hicp, _⟩ := findById_tentativeMove true h0 np
      rw [h3] at hm'
      rw [← Option.some_inj.mp hm'] at hicp
      rw [hicp]
      exact hinit
    have hpos3 : model3.position = np := by
      obtain ⟨m', hm', hp, _, _⟩ := findById_tentativeMove true h0 np
      rw [h3] at hm'
      rw [← Option.some_inj.mp hm'] at hp
      exact hp
    have hnew : hasNewCollision pairs (tentativeMove true ms mid np).2
        (preMoveNeighbors ms mid np)
        (getCollidingModels (tentativeMove true ms mid np).2 model3) model3 = false := by
      unfold hasNewCollision
      rw [List.any_eq_false]
      intro cid hcid
      by_cases hprev : cid ∈ preMoveNeighbors ms mid np
      · rw [(contains_eq_true_iff _ _).mpr hprev]
        simp
      · have hcont : (preMoveNeighbors ms mid np).contains cid = false := by
          cases hc : (preMoveNeighbors ms mid np).contains cid with
          | false => rfl
          | true => exact absurd ((contains_eq_true_iff _ _).mp hc) hprev
        rw [hcont]
        cases hfo : List.find? (fun m => m.id = cid) (tentativeMove true ms mid np).2 with
        | none => simp
        | some o =>
          have := hnonew cid hcid hprev o hfo
          simp [this]
    refine ⟨?_, hpos3⟩
    unfold checkMoveCollision
    simp only [Bool.not_true]
    rw [if_neg (by simp)]
    simp only [h3]
    rw [if_pos (by rw [hr1, hcoll]; rfl)]
    rw [if_pos (by rw [hresp, hic3, hnew]; rfl)]
  · intro pairs ms mid np pp cs model3 o nid hallow h3 hcoll hcur hprev hfo hnotpair
    have hmem : model3 ∈ (tentativeMove true ms mid np).2 := List.mem_of_find?_eq_some h3
    have hr1 : (tentativeMove true ms mid np).1 = true :=
      checkAll_flag_imp_bool _ model3 hmem hcoll
    have hnew : hasNewCollision pairs (tentativeMove true ms mid np).2
        (preMoveNeighbors ms mid np)
        (getCollidingModels (tentativeMove true ms mid np).2 model3) model3 = true := by
      unfold hasNewCollision
      rw [List.any_eq_true]
      refine ⟨nid, hcur, ?_⟩
      have hcont : (preMoveNeighbors ms mid np).contains nid = false := by
        cases hc : (preMoveNeighbors ms mid np).contains nid with
        | false => rfl
        | true => exact absurd ((contains_eq_true_iff _ _).mp hc) hprev
      rw [hcont]
      unfold findById at hfo
      rw [hfo]
      simp [hnotpair]
    constructor
    · unfold checkMoveCollision
      simp only [Bool.not_true]
      rw [if_neg (by simp)]
      simp only [h3]
      rw [if_pos (by rw [hr1, hcoll]; rfl)]
      rw [if_neg (by rw [hnew]; simp)]
      rw [if_pos (by rw [hallow]; rfl)]
    · obtain ⟨m3, hm3, hp3, _, _⟩ := findById_tentativeMove true h3 pp
      exact ⟨m3, hm3, hp3⟩

/-- Witness for C2: with tracked initial pair `(1,2)` and both models
flagged as initially colliding, sliding model 1 from `(0,0)` to
`(0.5,0)` (still overlapping only model 2) commits despite the
collision; sliding it to `(2.5,0)` additionally overlaps the untracked
model 3 and, with `allowCollisionMove = false`, is rejected. -/
theorem C2_initial_collision_tolerance_witness :
    checkMoveCollision true [(1, 2)] [sampleModel 1 0 0 true, sampleModel 2 1 0 true]
      1 ⟨1/2, 0, 0⟩ ⟨0, 0, 0⟩ ⟨false, 1/5, false, 1/2, some true⟩ =
      (true, (tentativeMove true [sampleModel 1 0 0 true, sampleModel 2 1 0 true]
        1 ⟨1/2, 0, 0⟩).2) ∧
    checkMoveCollision true [(1, 2)]
      [sampleModel 1 0 0 true, sampleModel 2 1 0 true, sampleModel 3 3 0 false]
      1 ⟨5/2, 0, 0⟩ ⟨0, 0, 0⟩ ⟨false, 1/5, false, 1/2, some true⟩ =
      (false, rollbackMove true (tentativeMove true
        [sampleModel 1 0 0 true, sampleModel 2 1 0 true, sampleModel 3 3 0 false]
        1 ⟨5/2, 0, 0⟩).2 1 ⟨0, 0, 0⟩) := by
  constructor
  · have hsub : ∀ nid ∈ getCollidingModels (tentativeMove true
        [sampleModel 1 0 0 true, sampleModel 2 1 0 true] 1 ⟨1/2, 0, 0⟩).2
        (⟨1, ⟨1/2, 0, 0⟩, 0, 1, ⟨2, 2, 2⟩, ⟨⟨-1/2, -1, -1⟩, ⟨3/2, 1, 1⟩⟩, true, true⟩ : Model),
        nid ∈ preMoveNeighbors [sampleModel 1 0 0 true, sampleModel 2 1 0 true] 1
          ⟨1/2, 0, 0⟩ := by
      with_unfolding_all decide
    exact (C2_initial_collision_tolerance.1 [(1, 2)]
      [sampleModel 1 0 0 true, sampleModel 2 1 0 true] 1 ⟨1/2, 0, 0⟩ ⟨0, 0, 0⟩
      ⟨false, 1/5, false, 1/2, some true⟩ (sampleModel 1 0 0 true)
      ⟨1, ⟨1/2, 0, 0⟩, 0, 1, ⟨2, 2, 2⟩, ⟨⟨-1/2, -1, -1⟩, ⟨3/2, 1, 1⟩⟩, true, true⟩
      (by with_unfolding_all decide) rfl rfl (by with_unfolding_all decide) rfl
      (fun nid hnid hnot o ho => absurd (hsub nid hnid) hnot)).1
  · exact (C2_initial_collision_tolerance.2 [(1, 2)]
      [sampleModel 1 0 0 true, sampleModel 2 1 0 true, sampleModel 3 3 0 false] 1
      ⟨5/2, 0, 0⟩ ⟨0, 0, 0⟩ ⟨false, 1/5, false, 1/2, some true⟩
      ⟨1, ⟨5/2, 0, 0⟩, 0, 1, ⟨2, 2, 2⟩, ⟨⟨3/2, -1, -1⟩, ⟨7/2, 1, 1⟩⟩, true, true⟩
      ⟨3, ⟨3, 0, 0⟩, 0, 1, ⟨2, 2, 2⟩, ⟨⟨2, -1, -1⟩, ⟨4, 1, 1⟩⟩, true, false⟩ 3
      rfl (by with_unfolding_all decide) rfl (by with_unfolding_all decide)
      (by with_unfolding_all decide) (by with_unfolding_all decide) rfl).1

theorem mem_updateInitialCollisionPairs (ms : List Model) (a b : ℕ) :
    (a, b) ∈ updateInitialCollisionPairs ms ↔
      ∃ i j, i < j ∧ j < ms.length ∧
        (ms.getD i default).initialCollisionState = true ∧
        (ms.getD j default).initialCollisionState = true ∧
        intersectsBox (ms.getD i default).boundingBox
          (ms.getD j default).boundingBox = true ∧
        getCollisionPairKey (ms.getD i default).id (ms.getD j default).id = (a, b) := by
  unfold updateInitialCollisionPairs
  rw [List.mem_filterMap]
  constructor
  · rintro ⟨⟨i, j⟩, hp, hf⟩
    obtain ⟨hij, hj⟩ := mem_pairList.mp hp
    simp only at hf
    by_cases hc : ((ms.getD i default).initialCollisionState &&
        (ms.getD j default).initialCollisionState &&
        intersectsBox (ms.getD i default).boundingBox
          (ms.getD j default).boundingBox) = true
    · rw [if_pos hc] at hf
      rw [Bool.and_eq_true, Bool.and_eq_true] at hc
      exact ⟨i, j, hij, hj, hc.1.1, hc.1.2, hc.2, Option.some_inj.mp hf⟩
    · rw [if_neg hc] at hf
      exact absurd hf (by simp)
  · rintro ⟨i, j, hij, hj, h1, h2, h3, hkey⟩
    refine ⟨(i, j), mem_pairList.mpr ⟨hij, hj⟩, ?_⟩
    simp only
    rw [if_pos (by rw [h1, h2, h3]; rfl), hkey]

theorem icMap_eq_core (ms : List Model) :
    icMap ms = (ms.map Model.core).map fun c => (c.id, c.initialCollisionState) := by
  unfold icMap
  rw [List.map_map]
  rfl

theorem icMap_checkAll (e : Bool) (ms : List Model) :
    icMap (checkAllCollisions e ms).2 = icMap ms := by
  rw [icMap_eq_core, icMap_eq_core, map_core_checkAll]

theorem icMap_setPositionById (ms : List Model) (mid : ℕ) (p : Vec3) :
    icMap (setPositionById ms mid p) = icMap ms := by
  unfold icMap setPositionById
  rw [List.map_map]
  apply List.map_congr_left
  intro a _
  by_cases h : a.id = mid <;> simp [Function.comp, h]

theorem icMap_updateBoundingBoxById (ms : List Model) (mid : ℕ) :
    icMap (updateBoundingBoxById ms mid) = icMap ms := by
  unfold icMap updateBoundingBoxById
  rw [List.map_map]
  apply List.map_congr_left
  intro a _
  by_cases h : a.id = mid <;> simp [Function.comp, h, updateModelBoundingBox]

theorem icMap_checkMove (e : Bool) (pairs : List (ℕ × ℕ)) (ms : List Model) (mid : ℕ)
    (np pp : Vec3) (cs : MoveConstraints) :
    icMap (checkMoveCollision e pairs ms mid np pp cs).2 = icMap ms := by
  have ht : ∀ (l : List Model) (q : Vec3), icMap (tentativeMove e l mid q).2 = icMap l := by
    intro l q
    unfold tentativeMove
    rw [icMap_checkAll, icMap_updateBoundingBoxById, icMap_setPositionById]
  rcases checkMove_out_cases e pairs ms mid np pp cs with ho | ho | ho <;> rw [ho]
  · exact ht ms np
  · unfold rollbackMove
    rw [icMap_checkAll, icMap_updateBoundingBoxById, icMap_setPositionById]
    exact ht ms np

/-- C7 counterexample: load three 2-cubes at the origin one after
another.  After the third load, models 2 and 3 both carry
`initialCollisionState = true` and overlap, yet the initial-pair
registry is empty — the newcomer's pairs are NOT recorded immediately
after its first collision pass, because `setModels` runs before the
snapshot.  Then removing the unrelated model 1 re-runs
`updateInitialCollisionPairs`, and the pair `(2,3)` appears — a later
removal of another object added to the registered initial pairs,
refuting the once-only/never-again claim. -/
theorem C7_registry_not_once_counterexample :
    ((loadModelCompletion true (loadModelCompletion true (loadModelCompletion true []
      (freshModel 1 0 0)).2 (freshModel 2 0 0)).2 (freshModel 3 0 0)).2.map
        fun m => (m.id, m.initialCollisionState)) =
      [(1, false), (2, true), (3, true)] ∧
    (loadModelCompletion true (loadModelCompletion true (loadModelCompletion true []
      (freshModel 1 0 0)).2 (freshModel 2 0 0)).2 (freshModel 3 0 0)).1 = [] ∧
    (removeModel true
      (loadModelCompletion true (loadModelCompletion true (loadModelCompletion true []
        (freshModel 1 0 0)).2 (freshModel 2 0 0)).2 (freshModel 3 0 0)).1
      (loadModelCompletion true (loadModelCompletion true (loadModelCompletion true []
        (freshModel 1 0 0)).2 (freshModel 2 0 0)).2 (freshModel 3 0 0)).2 1).2.1 =
      [(2, 3)] :=
  ⟨by with_unfolding_all decide, by with_unfolding_all decide, by with_unfolding_all decide⟩

/-- C7 (amended): the initial-pair registry is not written once per
object — it is cleared and recomputed from the CURRENT bounding boxes on
every models-list change: membership in `updateInitialCollisionPairs`
is exactly "some index pair with both `initialCollisionState` flags set
whose boxes currently intersect"; a removal replaces the registry by
that recomputation on the shrunk list; a newly loaded model's pairs are
never registered at its own load, because its snapshot is taken only
after the registry update (its `initialCollisionState` is still false
when `setModels` runs); and the `(id, initialCollisionState)` column
itself is immutable under position updates (single-axis and combined),
matching the snapshot-once half of the claim. -/
theorem C7_registry_recompute_semantics :
    (∀ (ms : List Model) (a b : ℕ), (a, b) ∈ updateInitialCollisionPairs ms ↔
      ∃ i j, i < j ∧ j < ms.length ∧
        (ms.getD i default).initialCollisionState = true ∧
        (ms.getD j default).initialCollisionState = true ∧
        intersectsBox (ms.getD i default).boundingBox
          (ms.getD j default).boundingBox = true ∧
        getCollisionPairKey (ms.getD i default).id (ms.getD j default).id = (a, b)) ∧
    (∀ (e : Bool) (ms : List Model) (newModel : Model),
      newModel.initialCollisionState = false →
      (∀ m ∈ ms, m.id ≠ newModel.id) →
      ∀ p ∈ (loadModelCompletion e ms newModel).1,
        p.1 ≠ newModel.id ∧ p.2 ≠ newModel.id) ∧
    (∀ (e : Bool) (pairs : List (ℕ × ℕ)) (ms : List Model) (mid i : ℕ),
      ms.findIdx? (fun m => m.id = mid) = some i →
      (removeModel e pairs ms mid).2.1 = updateInitialCollisionPairs (ms.eraseIdx i)) ∧
    (∀ (e : Bool) (pairs : List (ℕ × ℕ)) (ts : TransformState) (ms : List Model)
      (modelId : ℕ) (axis : Axis) (value : ℚ),
      icMap (updateModelPosition e pairs ts ms modelId axis value).2 = icMap ms) ∧
    (∀ (e : Bool) (pairs : List (ℕ × ℕ)) (ts : TransformState) (ms : List Model)
      (modelId : ℕ) (x z : ℚ),
      icMap (updateModelXZPosition e pairs ts ms modelId x z).2 = icMap ms) := by
  refine ⟨mem_updateInitialCollisionPairs, ?_, ?_, ?_, ?_⟩
  · intro e ms newModel hic hfresh p hp
    have hchar := (mem_updateInitialCollisionPairs (ms ++ [newModel]) p.1 p.2).mp hp
    obtain ⟨i, j, hij, hj, h1, h2, _, hkey⟩ := hchar
    rw [List.length_append, List.length_singleton] at hj
    have hnotid : ∀ (k : ℕ), k < ms.length + 1 →
        ((ms ++ [newModel]).getD k default).initialCollisionState = true →
        ((ms ++ [newModel]).getD k default).id ≠ newModel.id := by
      intro k hk hkic
      rw [List.getD_eq_getElem?_getD, List.getElem?_append] at hkic ⊢
      by_cases hkl : k < ms.length
      · rw [if_pos hkl] at hkic ⊢
        rw [List.getElem?_eq_getElem hkl] at hkic ⊢
        exact hfresh ms[k] (List.getElem_mem hkl)
      · rw [if_neg hkl] at hkic
        have hk0 : k - ms.length = 0 := by omega
        rw [hk0] at hkic
        simp only [List.getElem?_cons_zero, Option.getD_some] at hkic
        rw [hkic] at hic
        exact absurd hic (by simp)
    have hi := hnotid i (by omega) h1
    have hjj := hnotid j hj h2
    have hcomp : (p.1 = ((ms ++ [newModel]).getD i default).id ∨
        p.1 = ((ms ++ [newModel]).getD j default).id) ∧
        (p.2 = ((ms ++ [newModel]).getD i default).id ∨
        p.2 = ((ms ++ [newModel]).getD j default).id) := by
      unfold getCollisionPairKey at hkey
      split at hkey
      · injection hkey with hA hB
        exact ⟨Or.inl hA.symm, Or.inr hB.symm⟩
      · injection hkey with hA hB
        exact ⟨Or.inr hA.symm, Or.inl hB.symm⟩
    constructor
    · rcases hcomp.1 with h | h <;> rw [h]
      · exact hi
      · exact hjj
    · rcases hcomp.2 with h | h <;> rw [h]
      · exact hi
      · exact hjj
  · intro e pairs ms mid i hidx
    simp only [removeModel, hidx]
  · intro e pairs ts ms modelId axis value
    rcases updateModelPosition_cases e pairs ts ms modelId axis value with
      ⟨model, _, _, heq⟩ | heq | ⟨model, np, _, _, _, _, heq⟩ <;> rw [heq]
    · exact icMap_setPositionById ms modelId _
    · exact icMap_checkMove e pairs ms modelId np model.position ts.moveConstraints
  · intro e pairs ts ms modelId x z
    cases h0 : findById ms modelId with
    | none => simp only [updateModelXZPosition, h0]
    | some model =>
      simp only [updateModelXZPosition, h0]
      exact icMap_checkMove e pairs ms modelId (xzCandidate ts model x z) model.position
        ts.moveConstraints

/-- Witness for C7 (amended): removing model 1 from a two-model list
recomputes the registry on the remaining singleton, and loading a fresh
non-colliding model next to an existing one registers no pair involving
the newcomer. -/
theorem C7_registry_recompute_semantics_witness :
    (removeModel true [(1, 2)] [sampleModel 1 0 0 true, sampleModel 2 1 0 true] 1).2.1 =
      updateInitialCollisionPairs
        ([sampleModel 1 0 0 true, sampleModel 2 1 0 true].eraseIdx 0) ∧
    (∀ p ∈ (loadModelCompletion true [sampleModel 1 0 0 true] (freshModel 2 9 9)).1,
      p.1 ≠ 2 ∧ p.2 ≠ 2) := by
  constructor
  · exact C7_registry_recompute_semantics.2.2.1 true [(1, 2)]
      [sampleModel 1 0 0 true, sampleModel 2 1 0 true] 1 0 (by with_unfolding_all decide)
  · exact C7_registry_recompute_semantics.2.1 true [sampleModel 1 0 0 true]
      (freshModel 2 9 9) rfl (by with_unfolding_all decide)

end GridMaker
